import Mathlib

/-!
# Window decorations and window-management actions of wayfire

A shallow embedding of `plugins/decor/deco-subsurface.cpp` (the decoration
surface) and of `plugins/wm-actions/wm-actions.cpp`, with the properties of
the specification that are about them.

Conventions of the embedding.

* A C++ `int` is an `Int` together with the 32-bit two-complement wrap
  `wrap_int` applied after every arithmetic operation. Signed overflow is
  undefined in C++, so statements about exact values carry the hypothesis that
  the operations stay in range; statements that hold for the wrapped value as
  well are given without it.
* A method of `simple_decoration_surface` is a function from the object before
  the call to the object after it. The view the surface points to is a field of
  the object; what the compositor does to the view between two calls is an
  explicit step of its own.
* Requests sent to the view or to the output are appended to `requests`, calls
  of `view->damage()` are counted in `damage_count`. Rendering is not embedded.
* The layout engine (`deco-layout`), the theme (`deco-theme`) and the
  compositor headers lie outside the two embedded files. The surface takes the
  operations of the layout engine as a parameter; the interaction state machine
  of the layout engine is modelled from the specification where a property is
  about it.
-/

set_option autoImplicit false

namespace Decor

/-! ## Machine integers -/

/-- Smallest value of a C++ int. -/
def INT_MIN : Int := -2147483648

/-- Largest value of a C++ int. -/
def INT_MAX : Int := 2147483647

/-- Two-complement wrap of an integer into the range of a 32-bit int. -/
def wrap_int (z : Int) : Int := (z + 2147483648) % 4294967296 - 2147483648

/-- The integer is representable as a C++ int. -/
def is_int (z : Int) : Prop := INT_MIN ≤ z ∧ z ≤ INT_MAX

instance (z : Int) : Decidable (is_int z) := by
  unfold is_int; exact inferInstance

/-- Addition of two ints. -/
def int_add (a b : Int) : Int := wrap_int (a + b)

/-- Subtraction of two ints. -/
def int_sub (a b : Int) : Int := wrap_int (a - b)

/-- Multiplication of two ints. -/
def int_mul (a b : Int) : Int := wrap_int (a * b)

/-- Unary minus of an int. -/
def int_neg (a : Int) : Int := wrap_int (-a)

/-! ## Geometry types of the compositor -/

/-- Rectangle `wlr_box` / `wf::geometry_t`: origin and extent, all ints. -/
structure geometry_t where
  x : Int
  y : Int
  width : Int
  height : Int
deriving DecidableEq

/-- Point `wf::point_t`. -/
structure point_t where
  x : Int
  y : Int
deriving DecidableEq

/-- Extent `wf::dimensions_t`. -/
structure dimensions_t where
  width : Int
  height : Int
deriving DecidableEq

/-- All four fields of the rectangle are representable as ints. -/
def geometry_t.is_valid (g : geometry_t) : Prop :=
  is_int g.x ∧ is_int g.y ∧ is_int g.width ∧ is_int g.height

instance (g : geometry_t) : Decidable g.is_valid := by
  unfold geometry_t.is_valid; exact inferInstance

/-- The point (px, py) lies in the rectangle: left and top edge inclusive,
right and bottom edge exclusive, as `pixman_region32_contains_point` has it. -/
def geometry_t.contains (g : geometry_t) (px py : Int) : Bool :=
  decide (g.x ≤ px) && decide (px < g.x + g.width) &&
  decide (g.y ≤ py) && decide (py < g.y + g.height)

/-- Modelled from the spec: the type `wf::region_t` of the compositor headers,
which are not among the sources. The spec describes the cached region as a set
of pixel rectangles in decoration-local coordinates; it is the list of them. -/
abbrev region_t := List geometry_t

/-- Counterpart of `wf::region_t::clear`: the region without any rectangle. -/
def region_t.clear (_r : region_t) : region_t := []

/-- Counterpart of `pixman_region32_contains_point`: some rectangle of the
region holds the point. -/
def region_t.contains_point (r : region_t) (px py : Int) : Bool :=
  r.any (fun b => b.contains px py)

/-! ## Collaborators of the surface -/

/-- Modelled from the spec: the metrics of `wf::decor::decoration_theme_t`
(`deco-theme`, not among the sources). `get_border_size()` and
`get_title_height()` are fixed metrics of the theme; they are its two fields. -/
structure decoration_theme_t where
  border_size : Int
  title_height : Int
deriving DecidableEq

/-- Getter `decoration_theme_t::get_border_size`. -/
def decoration_theme_t.get_border_size (t : decoration_theme_t) : Int := t.border_size

/-- Getter `decoration_theme_t::get_title_height`. -/
def decoration_theme_t.get_title_height (t : decoration_theme_t) : Int := t.title_height

/-- The part of the view (`wayfire_view`) the decoration reads: the fullscreen
flag, the mask of tiled edges and the result of `get_wm_geometry()`. -/
structure view_t where
  fullscreen : Bool
  tiled_edges : Nat
  wm_geometry : geometry_t
deriving DecidableEq

/-- Modelled from the spec: the enumeration `decoration_action_t` of
`deco-layout.hpp` (not among the sources): none, Move, Resize, Close,
ToggleMaximize, Minimize. -/
inductive decoration_action_t where
  | DECORATION_ACTION_NONE
  | DECORATION_ACTION_MOVE
  | DECORATION_ACTION_RESIZE
  | DECORATION_ACTION_CLOSE
  | DECORATION_ACTION_TOGGLE_MAXIMIZE
  | DECORATION_ACTION_MINIMIZE
deriving DecidableEq

open decoration_action_t

/-- Result `decoration_layout_t::action_response_t` of a press event: the
action and, for a resize, the mask of edges. -/
structure action_response_t where
  action : decoration_action_t
  edges : Nat
deriving DecidableEq

/-- Mask `wf::TILED_EDGES_ALL` of the compositor headers: top, bottom, left and
right edge together (1 + 2 + 4 + 8). -/
def TILED_EDGES_ALL : Nat := 15

/-- Button code `BTN_LEFT` of linux/input-event-codes.h. -/
def BTN_LEFT : Nat := 272

/-- Button state `WLR_BUTTON_RELEASED` of wlroots. -/
def WLR_BUTTON_RELEASED : Nat := 0

/-- Button state `WLR_BUTTON_PRESSED` of wlroots. -/
def WLR_BUTTON_PRESSED : Nat := 1

/-- A request the surface sends to its view or to the output of the view. -/
inductive request_t where
  /-- Signal "move-request" on the output, carrying the view. -/
  | move_request
  /-- Signal "resize-request" on the output, carrying the view and the edges. -/
  | resize_request (edges : Nat)
  /-- Call `view->close()`. -/
  | close
  /-- Call `view->tile_request(edges)`. -/
  | tile_request (edges : Nat)
  /-- Call `view->minimize_request(state)`. -/
  | minimize_request (state : Bool)
deriving DecidableEq

/-- Input operations of `wf::decor::decoration_layout_t` the surface calls
(`deco-layout`, not among the sources), over a layout state `L`. -/
structure layout_input_ops (L : Type) where
  /-- Method `handle_motion(x, y)`. -/
  handle_motion : L → Int → Int → L
  /-- Method `handle_focus_lost()`. -/
  handle_focus_lost : L → L
  /-- Method `handle_press_event(pressed)`: the layout after the call and the
  response. -/
  handle_press_event : L → Bool → L × action_response_t

/-- All operations of `wf::decor::decoration_layout_t` the surface calls: the
input operations and the two geometry operations. -/
structure layout_ops (L : Type) extends layout_input_ops L where
  /-- Method `resize(width, height)`. -/
  resize : L → Int → Int → L
  /-- Method `calculate_region()`. -/
  calculate_region : L → region_t

/-! ## The decoration surface -/

/-- Object state of `simple_decoration_surface`, with the layout state `L`.
The title texture is used by rendering only and is left out. -/
structure simple_decoration_surface (L : Type) where
  _mapped : Bool
  current_thickness : Int
  current_titlebar : Int
  view : view_t
  width : Int
  height : Int
  active : Bool
  theme : decoration_theme_t
  layout : L
  cached_region : region_t
  /-- Requests sent so far, oldest first. -/
  requests : List request_t
  /-- Number of calls of `view->damage()` so far. -/
  damage_count : Nat

variable {L : Type}

/-- Method `is_mapped`. -/
def is_mapped (s : simple_decoration_surface L) : Bool := s._mapped

/-- Method `get_offset`. -/
def get_offset (s : simple_decoration_surface L) : point_t :=
  { x := int_neg s.current_thickness, y := int_neg s.current_titlebar }

/-- Method `get_size`. -/
def get_size (s : simple_decoration_surface L) : dimensions_t :=
  { width := s.width, height := s.height }

/-- Method `accepts_input`. -/
def accepts_input (s : simple_decoration_surface L) (sx sy : Int) : Bool :=
  s.cached_region.contains_point sx sy

/-- Call `view->damage()`. -/
def view_damage (s : simple_decoration_surface L) : simple_decoration_surface L :=
  { s with damage_count := s.damage_count + 1 }

/-- Method `expand_wm_geometry`. -/
def expand_wm_geometry (s : simple_decoration_surface L)
    (contained_wm_geometry : geometry_t) : geometry_t :=
  let g := contained_wm_geometry
  let g := { g with x := int_sub g.x s.current_thickness }
  let g := { g with y := int_sub g.y s.current_titlebar }
  let g := { g with width := int_add g.width (int_mul 2 s.current_thickness) }
  let g := { g with
    height := int_add g.height (int_add s.current_thickness s.current_titlebar) }
  g

/-- Method `calculate_resize_size`; the two reference parameters are returned
as a pair (target_width, target_height). -/
def calculate_resize_size (s : simple_decoration_surface L)
    (target_width target_height : Int) : Int × Int :=
  let target_width := int_sub target_width (int_mul 2 s.current_thickness)
  let target_height :=
    int_sub target_height (int_add s.current_thickness s.current_titlebar)
  let target_width := max target_width 1
  let target_height := max target_height 1
  (target_width, target_height)

/-- Method `send_move_request`: the signal "move-request" on the output. -/
def send_move_request (s : simple_decoration_surface L) : simple_decoration_surface L :=
  { s with requests := s.requests ++ [request_t.move_request] }

/-- Method `send_resize_request`: the signal "resize-request" on the output. -/
def send_resize_request (s : simple_decoration_surface L) (edges : Nat) :
    simple_decoration_surface L :=
  { s with requests := s.requests ++ [request_t.resize_request edges] }

/-- Method `handle_action`. -/
def handle_action (s : simple_decoration_surface L) (action : action_response_t) :
    simple_decoration_surface L :=
  match action.action with
  | DECORATION_ACTION_MOVE => send_move_request s
  | DECORATION_ACTION_RESIZE => send_resize_request s action.edges
  | DECORATION_ACTION_CLOSE => { s with requests := s.requests ++ [request_t.close] }
  | DECORATION_ACTION_TOGGLE_MAXIMIZE =>
    if s.view.tiled_edges ≠ 0 then
      { s with requests := s.requests ++ [request_t.tile_request 0] }
    else
      { s with requests := s.requests ++ [request_t.tile_request TILED_EDGES_ALL] }
  | DECORATION_ACTION_MINIMIZE =>
    { s with requests := s.requests ++ [request_t.minimize_request true] }
  | _ => s

/-- Method `on_pointer_enter`. -/
def on_pointer_enter (ops : layout_input_ops L) (s : simple_decoration_surface L) (x y : Int) :
    simple_decoration_surface L :=
  { s with layout := ops.handle_motion s.layout x y }

/-- Method `on_pointer_leave`. -/
def on_pointer_leave (ops : layout_input_ops L) (s : simple_decoration_surface L) :
    simple_decoration_surface L :=
  { s with layout := ops.handle_focus_lost s.layout }

/-- Method `on_pointer_motion`. -/
def on_pointer_motion (ops : layout_input_ops L) (s : simple_decoration_surface L) (x y : Int) :
    simple_decoration_surface L :=
  { s with layout := ops.handle_motion s.layout x y }

/-- Method `on_pointer_button`. -/
def on_pointer_button (ops : layout_input_ops L) (s : simple_decoration_surface L)
    (button state : Nat) : simple_decoration_surface L :=
  if button ≠ BTN_LEFT then s
  else
    let r := ops.handle_press_event s.layout (decide (state = WLR_BUTTON_PRESSED))
    handle_action { s with layout := r.1 } r.2

/-- Method `on_touch_down`; `handle_press_event()` is called with its default
argument, pressed = true. -/
def on_touch_down (ops : layout_input_ops L) (s : simple_decoration_surface L) (x y : Int) :
    simple_decoration_surface L :=
  let s := { s with layout := ops.handle_motion s.layout x y }
  let r := ops.handle_press_event s.layout true
  handle_action { s with layout := r.1 } r.2

/-- Method `on_touch_motion`. -/
def on_touch_motion (ops : layout_input_ops L) (s : simple_decoration_surface L) (x y : Int) :
    simple_decoration_surface L :=
  { s with layout := ops.handle_motion s.layout x y }

/-- Method `on_touch_up`. -/
def on_touch_up (ops : layout_input_ops L) (s : simple_decoration_surface L) :
    simple_decoration_surface L :=
  let r := ops.handle_press_event s.layout false
  let s := handle_action { s with layout := r.1 } r.2
  { s with layout := ops.handle_focus_lost s.layout }

/-- Method `notify_view_activated`. -/
def notify_view_activated (s : simple_decoration_surface L) (active : Bool) :
    simple_decoration_surface L :=
  let s := if s.active ≠ active then view_damage s else s
  { s with active := active }

/-- Method `notify_view_resized`. -/
def notify_view_resized (ops : layout_ops L) (s : simple_decoration_surface L)
    (view_geometry : geometry_t) : simple_decoration_surface L :=
  let s := view_damage s
  let s := { s with width := view_geometry.width }
  let s := { s with height := view_geometry.height }
  let s := { s with layout := ops.resize s.layout s.width s.height }
  let s := if !s.view.fullscreen then
      { s with cached_region := ops.calculate_region s.layout }
    else s
  view_damage s

/-- Method `notify_view_tiled`: empty body. -/
def notify_view_tiled (s : simple_decoration_surface L) : simple_decoration_surface L := s

/-- Method `update_decoration_size`. -/
def update_decoration_size (ops : layout_ops L) (s : simple_decoration_surface L) :
    simple_decoration_surface L :=
  if s.view.fullscreen then
    let s := { s with current_thickness := 0 }
    let s := { s with current_titlebar := 0 }
    { s with cached_region := s.cached_region.clear }
  else
    let s := { s with current_thickness := s.theme.get_border_size }
    let s := { s with
      current_titlebar := int_add s.theme.get_title_height s.theme.get_border_size }
    { s with cached_region := ops.calculate_region s.layout }

/-- Method `notify_view_fullscreen`. -/
def notify_view_fullscreen (ops : layout_ops L) (s : simple_decoration_surface L) :
    simple_decoration_surface L :=
  let s := update_decoration_size ops s
  if !s.view.fullscreen then notify_view_resized ops s s.view.wm_geometry else s

/-- Constructor of `simple_decoration_surface` for the view, with the theme and
the layout object built from it. The member initialisers give _mapped = true,
width = height = 100, active = true and an empty region; the two size members
have no initialiser and are assigned by `update_decoration_size` on either
branch, so the value they start from (0 here) is never read. -/
def simple_decoration_surface.construct (ops : layout_ops L) (theme : decoration_theme_t)
    (layout : L) (view : view_t) : simple_decoration_surface L :=
  update_decoration_size ops
    { _mapped := true
      current_thickness := 0
      current_titlebar := 0
      view := view
      width := 100
      height := 100
      active := true
      theme := theme
      layout := layout
      cached_region := []
      requests := []
      damage_count := 0 }

/-- A call the compositor makes on the surface, or a change it makes to the
view the surface points to. -/
inductive surface_event where
  | pointer_enter (x y : Int)
  | pointer_leave
  | pointer_motion (x y : Int)
  | pointer_button (button state : Nat)
  | touch_down (x y : Int)
  | touch_motion (x y : Int)
  | touch_up
  | view_activated (active : Bool)
  | view_resized (view_geometry : geometry_t)
  | view_tiled
  | view_fullscreen
  /-- The compositor changes the state of the view; no method is called. -/
  | view_changed (view : view_t)

/-- One event applied to the surface. -/
def surface_step (ops : layout_ops L) (s : simple_decoration_surface L) :
    surface_event → simple_decoration_surface L
  | .pointer_enter x y => on_pointer_enter ops.tolayout_input_ops s x y
  | .pointer_leave => on_pointer_leave ops.tolayout_input_ops s
  | .pointer_motion x y => on_pointer_motion ops.tolayout_input_ops s x y
  | .pointer_button b st => on_pointer_button ops.tolayout_input_ops s b st
  | .touch_down x y => on_touch_down ops.tolayout_input_ops s x y
  | .touch_motion x y => on_touch_motion ops.tolayout_input_ops s x y
  | .touch_up => on_touch_up ops.tolayout_input_ops s
  | .view_activated a => notify_view_activated s a
  | .view_resized g => notify_view_resized ops s g
  | .view_tiled => notify_view_tiled s
  | .view_fullscreen => notify_view_fullscreen ops s
  | .view_changed v => { s with view := v }

/-- The events applied in order. -/
def surface_run (ops : layout_ops L) (s : simple_decoration_surface L) :
    List surface_event → simple_decoration_surface L
  | [] => s
  | e :: es => surface_run ops (surface_step ops s e) es

/-- The event leaves the window fullscreen: every call does, a change of the
view does when the new state of the view is fullscreen. -/
def surface_event.keeps_fullscreen : surface_event → Bool
  | .view_changed v => v.fullscreen
  | _ => true

/-! ## The interaction state machine of the layout engine

`deco-layout` is not among the sources; this section follows section 3 and
section 4.1 of the specification. -/

/-- Modelled from the spec: the kind of a button area, Close, Maximize or
Minimize (the button types of `deco-layout`, not among the sources). -/
inductive button_kind_t where
  | Close
  | Maximize
  | Minimize
deriving DecidableEq

/-- Modelled from the spec: the type of an area of the decoration (declared in
`deco-layout`, not among the sources): the title region, a button of some kind,
or one of the border and corner hit zones, which stands for a mask of edges. -/
inductive decoration_area_type_t where
  | Title
  | Button (kind : button_kind_t)
  | Border (edges : Nat)
deriving DecidableEq

/-- Modelled from the spec: an area (`decoration_area_t` of `deco-layout`, not
among the sources), a typed element with an assigned geometry in the local
coordinates of the decoration. -/
structure decoration_area_t where
  type : decoration_area_type_t
  geometry : geometry_t
deriving DecidableEq

/-- Modelled from the spec: the interaction state of the layout engine (kept in
`deco-layout`, not among the sources): exactly one of Idle, Hovering(area) and
Armed(button). An armed button is given by its kind and its geometry. -/
inductive interaction_state_t where
  | Idle
  | Hovering (area : decoration_area_t)
  | Armed (kind : button_kind_t) (geometry : geometry_t)
deriving DecidableEq

/-- Modelled from the spec: the state of `decoration_layout_t` (`deco-layout`,
not among the sources) that the input operations use: the ordered sequence of
areas of the last partition, the point of the last motion event if there was
one, and the interaction state. -/
structure decoration_layout_t where
  areas : List decoration_area_t
  pointer : Option point_t
  state : interaction_state_t
deriving DecidableEq

/-- Modelled from the spec: the hit test of `deco-layout` (not among the
sources), "locates which Area (if any) contains point (x,y) using the last
computed partition"; the sequence is searched in its order. -/
def find_area_at (areas : List decoration_area_t) (x y : Int) : Option decoration_area_t :=
  areas.find? (fun a => a.geometry.contains x y)

/-- Modelled from the spec: the state "Hovering(area) or Idle if outside all
areas" for a location (part of `deco-layout`, not among the sources). -/
def hover_state_at (areas : List decoration_area_t) (x y : Int) : interaction_state_t :=
  match find_area_at areas x y with
  | some a => interaction_state_t.Hovering a
  | none => interaction_state_t.Idle

/-- Modelled from the spec: the action bound to a button kind (the dispatch of
`deco-layout`, not among the sources): Close, ToggleMaximize, Minimize. -/
def button_action (kind : button_kind_t) : decoration_action_t :=
  match kind with
  | button_kind_t.Close => DECORATION_ACTION_CLOSE
  | button_kind_t.Maximize => DECORATION_ACTION_TOGGLE_MAXIMIZE
  | button_kind_t.Minimize => DECORATION_ACTION_MINIMIZE

/-- Modelled from the spec: `decoration_layout_t::handle_motion` (`deco-layout`,
not among the sources). "If currently Armed(b) and the point leaves button b
geometry, drop back to Hovering/Idle for the new location (disarm without
firing); otherwise transition to Hovering(area) or Idle if outside all areas".
An armed button whose geometry still holds the point stays armed ("an armed
button can remain armed indefinitely until release or focus loss"); the point
is recorded in every case. -/
def decoration_layout_t.handle_motion (l : decoration_layout_t) (x y : Int) :
    decoration_layout_t :=
  match l.state with
  | interaction_state_t.Armed _ g =>
    if g.contains x y then { l with pointer := some { x := x, y := y } }
    else { l with pointer := some { x := x, y := y }, state := hover_state_at l.areas x y }
  | _ => { l with pointer := some { x := x, y := y }, state := hover_state_at l.areas x y }

/-- Modelled from the spec: a sequence of motion events, each handled by
`decoration_layout_t::handle_motion` (`deco-layout`, not among the sources), in
order. -/
def decoration_layout_t.handle_motions (l : decoration_layout_t) :
    List point_t → decoration_layout_t
  | [] => l
  | m :: ms => (l.handle_motion m.x m.y).handle_motions ms

/-- Modelled from the spec: `decoration_layout_t::handle_focus_lost`
(`deco-layout`, not among the sources), "unconditionally resets state to Idle,
discarding any armed button". -/
def decoration_layout_t.handle_focus_lost (l : decoration_layout_t) : decoration_layout_t :=
  { l with state := interaction_state_t.Idle }

/-- Modelled from the spec: the test "the pointer is still over b" of a release
(part of `deco-layout`, not among the sources): the point of the last motion
event lies in the geometry of the button. -/
def decoration_layout_t.pointer_over (l : decoration_layout_t) (g : geometry_t) : Bool :=
  match l.pointer with
  | some p => g.contains p.x p.y
  | none => false

/-- Modelled from the spec: the state "Hovering/Idle for wherever it now is"
(part of `deco-layout`, not among the sources). -/
def decoration_layout_t.hover_state_now (l : decoration_layout_t) : interaction_state_t :=
  match l.pointer with
  | some p => hover_state_at l.areas p.x p.y
  | none => interaction_state_t.Idle

/-- Modelled from the spec: `decoration_layout_t::handle_press_event`
(`deco-layout`, not among the sources). A press while Hovering(Title) emits
Move, a press while hovering a border zone emits Resize with the mask of the
zone, a press while Hovering(Button b) arms b and emits nothing; a release
while Armed(b) emits the action bound to b and returns to Hovering(b) when the
pointer is still over b, and emits nothing and returns to the hover state of
the pointer when it is not; any other combination emits no action. -/
def decoration_layout_t.handle_press_event (l : decoration_layout_t) (pressed : Bool) :
    decoration_layout_t × action_response_t :=
  match pressed, l.state with
  | true, interaction_state_t.Hovering a =>
    match a.type with
    | decoration_area_type_t.Title =>
      (l, { action := DECORATION_ACTION_MOVE, edges := 0 })
    | decoration_area_type_t.Border edges =>
      (l, { action := DECORATION_ACTION_RESIZE, edges := edges })
    | decoration_area_type_t.Button kind =>
      ({ l with state := interaction_state_t.Armed kind a.geometry },
        { action := DECORATION_ACTION_NONE, edges := 0 })
  | false, interaction_state_t.Armed kind g =>
    if l.pointer_over g then
      let b : decoration_area_t := { type := decoration_area_type_t.Button kind, geometry := g }
      ({ l with state := interaction_state_t.Hovering b },
        { action := button_action kind, edges := 0 })
    else
      ({ l with state := l.hover_state_now },
        { action := DECORATION_ACTION_NONE, edges := 0 })
  | _, _ => (l, { action := DECORATION_ACTION_NONE, edges := 0 })

/-- The input operations of the layout engine as the specification has them. -/
def spec_layout_input_ops : layout_input_ops decoration_layout_t where
  handle_motion := decoration_layout_t.handle_motion
  handle_focus_lost := decoration_layout_t.handle_focus_lost
  handle_press_event := decoration_layout_t.handle_press_event

/-- A sequence of calls of `on_pointer_motion`, in order. -/
def on_pointer_motions (ops : layout_input_ops L) (s : simple_decoration_surface L) :
    List point_t → simple_decoration_surface L
  | [] => s
  | m :: ms => on_pointer_motions ops (on_pointer_motion ops s m.x m.y) ms

/-! ## Concrete instances -/

/-- A small layout engine for concrete instances: its state is the size it was
last resized to, its region is the rectangle of that size at the origin, and
input leaves it alone. -/
def example_layout_ops : layout_ops dimensions_t where
  handle_motion := fun l _ _ => l
  handle_focus_lost := fun l => l
  handle_press_event := fun l _ => (l, { action := DECORATION_ACTION_NONE, edges := 0 })
  resize := fun _ w h => { width := w, height := h }
  calculate_region := fun l => [{ x := 0, y := 0, width := l.width, height := l.height }]

/-- A view for concrete instances, with geometry 300 x 200 at (10, 20). -/
def example_view (fullscreen : Bool) (tiled_edges : Nat) : view_t :=
  { fullscreen := fullscreen, tiled_edges := tiled_edges,
    wm_geometry := { x := 10, y := 20, width := 300, height := 200 } }

/-- A theme for concrete instances: border 4, title height 24. -/
def example_theme : decoration_theme_t := { border_size := 4, title_height := 24 }

/-- A surface for concrete instances, built by the constructor. -/
def example_surface (fullscreen : Bool) (tiled_edges : Nat) :
    simple_decoration_surface dimensions_t :=
  simple_decoration_surface.construct example_layout_ops example_theme
    { width := 100, height := 100 } (example_view fullscreen tiled_edges)

/-- A partition for concrete instances on a 300 x 200 decoration: a Close
button at the right margin of the title bar, a title region, a left border. -/
def example_areas : List decoration_area_t :=
  [ { type := decoration_area_type_t.Button button_kind_t.Close,
      geometry := { x := 276, y := 4, width := 20, height := 20 } },
    { type := decoration_area_type_t.Title,
      geometry := { x := 4, y := 4, width := 272, height := 20 } },
    { type := decoration_area_type_t.Border 4,
      geometry := { x := 0, y := 0, width := 4, height := 200 } } ]

/-- A layout for concrete instances: the partition above, no motion yet, Idle. -/
def example_layout : decoration_layout_t :=
  { areas := example_areas, pointer := none, state := interaction_state_t.Idle }

/-- A surface over the layout above, for concrete instances. -/
def example_input_surface (tiled_edges : Nat) : simple_decoration_surface decoration_layout_t :=
  { _mapped := true, current_thickness := 4, current_titlebar := 28,
    view := example_view false tiled_edges, width := 300, height := 200, active := true,
    theme := example_theme, layout := example_layout, cached_region := [],
    requests := [], damage_count := 0 }

end Decor

namespace WmActions

/-! ## Window-management actions (`wm-actions.cpp`) -/

/-- Enumeration `wf::activator_source_t` of the compositor headers: what
triggered an activator binding. -/
inductive activator_source_t where
  | KEYBINDING
  | MODIFIERBINDING
  | BUTTONBINDING
  | GESTURE
  | HOTSPOT
  | PLUGIN
  | PLUGIN_WITH_DATA
deriving DecidableEq

/-- Enumeration `wf::view_role_t` of the compositor headers. -/
inductive view_role_t where
  | VIEW_ROLE_TOPLEVEL
  | VIEW_ROLE_UNMANAGED
  | VIEW_ROLE_DESKTOP_ENVIRONMENT
deriving DecidableEq

/-- The part of a view object the plugin reads: an identity, the role, the
minimized flag, whether it is mapped, and the keys of the custom data stored
on it. -/
structure view_t where
  id : Nat
  role : view_role_t
  minimized : Bool
  mapped : Bool
  data : List String
deriving DecidableEq

/-- Pointer `wayfire_view`: null or a view. -/
abbrev wayfire_view := Option view_t

/-- What the compositor answers when the plugin asks for the selected view:
`wf::get_core().get_cursor_focus_view()` and `output->get_active_view()`. -/
structure focus_t where
  cursor_focus_view : wayfire_view
  active_view : wayfire_view
deriving DecidableEq

/-- Assignment to a local variable that already holds a value: the value it
held is dropped and the variable holds the new one. -/
def assign {α : Type} (_held new : α) : α := new

/-- Method `wayfire_wm_actions_t::choose_view`. The local `view` starts null,
is assigned the cursor focus view for a button binding, and is then assigned
the active view of the output in every case. -/
def choose_view (focus : focus_t) (source : activator_source_t) : wayfire_view :=
  let view : wayfire_view := none
  let view := if source = activator_source_t.BUTTONBINDING then focus.cursor_focus_view else view
  let view := assign view focus.active_view
  match view with
  | none => none
  | some v => if v.role ≠ view_role_t.VIEW_ROLE_TOPLEVEL then none else some v

/-- The selection the documentation of `choose_view` describes, following the
words of the claim: the cursor focus view for a button binding, the active view
of the output for every other source, and null unless that view is a toplevel. -/
def choose_view_spec (focus : focus_t) (source : activator_source_t) : wayfire_view :=
  let selected :=
    if source = activator_source_t.BUTTONBINDING then focus.cursor_focus_view
    else focus.active_view
  match selected with
  | none => none
  | some v => if v.role = view_role_t.VIEW_ROLE_TOPLEVEL then some v else none

/-! ### Views of the output and the state of the plugin -/

/-- Failure of an execution that the language leaves undefined. -/
inductive fault_t where
  /-- A member of the object behind a null `wayfire_view` is accessed. -/
  | null_pointer_dereference
deriving DecidableEq

/-- Enumeration `wf::layer_t` of the compositor headers: the layers of an
output, from the background to the desktop widgets. -/
inductive layer_t where
  | LAYER_BACKGROUND
  | LAYER_BOTTOM
  | LAYER_WORKSPACE
  | LAYER_TOP
  | LAYER_UNMANAGED
  | LAYER_LOCK
  | LAYER_DESKTOP_WIDGET
deriving DecidableEq

/-- A mask of layers (`uint32_t layers_mask`), as the set of layers it holds. -/
abbrev layer_mask_t := layer_t → Bool

/-- Mask `wf::WM_LAYERS` of the compositor headers: the layers where regular
views are placed, which is the workspace layer. -/
def WM_LAYERS : layer_mask_t := fun l => decide (l = layer_t.LAYER_WORKSPACE)

/-- Mask `wf::ALL_LAYERS` of the compositor headers: every layer. -/
def ALL_LAYERS : layer_mask_t := fun _ => true

/-- Where the root node of a view hangs in the scene of the output: under the
node of a layer, under the `always_above` node of the plugin, or nowhere. -/
inductive node_parent_t where
  | layer (l : layer_t)
  | always_above
  | detached
deriving DecidableEq

/-- The layer a parent node belongs to. `init` puts the `always_above` node in
front of the node of the workspace layer. -/
def node_parent_t.layer_of : node_parent_t → Option layer_t
  | node_parent_t.layer l => some l
  | node_parent_t.always_above => some layer_t.LAYER_WORKSPACE
  | node_parent_t.detached => none

/-- A view of the output together with the parent of its root node. -/
structure output_view_t where
  parent : node_parent_t
  view : view_t
deriving DecidableEq

/-- A request or signal the plugin sends, with the identity of the view. -/
inductive wm_request_t where
  /-- Call `view->minimize_request(state)`. -/
  | minimize_request (view : Nat) (state : Bool)
  /-- Signal `wm_actions_above_changed_signal` on the output. -/
  | above_changed (view : Nat)
deriving DecidableEq

/-- What the compositor makes of a minimize request: the minimized flag of the
view after `minimize_request(state)` returns. The compositor may carry the
request out, ignore it or hand it to another plugin. -/
abbrev minimize_policy_t := view_t → Bool → Bool

/-- Object state of `wayfire_wm_actions_t` and the state of its output: the
member `showdesktop_active`, which of the four show-desktop connections are
connected, the answer of `output->can_activate_plugin`, the views of the output
front to back, and the requests sent so far, oldest first. -/
structure wayfire_wm_actions_t where
  showdesktop_active : Bool
  view_attached_connected : Bool
  workspace_changed_connected : Bool
  view_minimized_connected : Bool
  on_view_mapped_connected : Bool
  can_activate_plugin : Bool
  views : List output_view_t
  requests : List wm_request_t
deriving DecidableEq

/-- Key of the custom data that marks a view as kept above. -/
def above_key : String := "wm-actions-above"

/-- Key of the custom data that marks a view minimized by show-desktop. -/
def showdesktop_key : String := "wm-actions-showdesktop"

/-- Member `has_data(key)` of a view object. -/
def view_t.has_data (v : view_t) (key : String) : Bool := v.data.contains key

/-- Member `store_data(data, key)` of a view object: the key is held once. -/
def view_t.store_data (v : view_t) (key : String) : view_t :=
  { v with data := key :: v.data.filter (fun k => k != key) }

/-- Member `erase_data(key)` of a view object. -/
def view_t.erase_data (v : view_t) (key : String) : view_t :=
  { v with data := v.data.filter (fun k => k != key) }

/-- Member `minimize_request(state)` of a view object: what it does to the view. -/
def view_t.minimize_request (policy : minimize_policy_t) (v : view_t) (state : Bool) : view_t :=
  { v with minimized := policy v state }

/-- Access `view->has_data(key)` through a `wayfire_view`: undefined on null. -/
def wayfire_view_has_data (view : wayfire_view) (key : String) : Except fault_t Bool :=
  match view with
  | none => Except.error fault_t.null_pointer_dereference
  | some v => Except.ok (v.has_data key)

/-- A change applied to the objects of the output that a non-null pointer to
the view with this identity points to. -/
def modify_view (views : List output_view_t) (id : Nat) (f : output_view_t → output_view_t) :
    List output_view_t :=
  views.map (fun pv => if pv.view.id = id then f pv else pv)

/-- Call `wf::scene::remove_child(view->get_root_node())`. -/
def scene_remove_child (views : List output_view_t) (id : Nat) : List output_view_t :=
  modify_view views id (fun pv => { pv with parent := node_parent_t.detached })

/-- Call `wf::scene::add_front(parent, view->get_root_node())`, also used for
`output->workspace->add_view(view, layer)`: the node hangs under the parent, in
front of the others. -/
def scene_add_front (views : List output_view_t) (id : Nat) (parent : node_parent_t) :
    List output_view_t :=
  (views.filter (fun pv => decide (pv.view.id = id))).map (fun pv => { pv with parent := parent })
    ++ views.filter (fun pv => !decide (pv.view.id = id))

/-- Method `wayfire_wm_actions_t::set_keep_above_state`. -/
def set_keep_above_state (p : wayfire_wm_actions_t) (view : wayfire_view) (above : Bool) :
    Bool × wayfire_wm_actions_t :=
  match view with
  | none => (false, p)
  | some v =>
    if !p.can_activate_plugin then (false, p)
    else
      let p := { p with views := scene_remove_child p.views v.id }
      let p :=
        if above then
          let p := { p with views := scene_add_front p.views v.id node_parent_t.always_above }
          let store := fun (pv : output_view_t) => { pv with view := pv.view.store_data above_key }
          { p with views := modify_view p.views v.id store }
        else if v.has_data above_key then
          let workspace := node_parent_t.layer layer_t.LAYER_WORKSPACE
          let p := { p with views := scene_add_front p.views v.id workspace }
          let erase := fun (pv : output_view_t) => { pv with view := pv.view.erase_data above_key }
          { p with views := modify_view p.views v.id erase }
        else p
      let p := { p with requests := p.requests ++ [wm_request_t.above_changed v.id] }
      (true, p)

/-- Activator callback `on_toggle_above`. The argument
`!view->has_data("wm-actions-above")` is evaluated before
`set_keep_above_state` is entered. -/
def on_toggle_above (p : wayfire_wm_actions_t) (focus : focus_t) (source : activator_source_t) :
    Except fault_t (Bool × wayfire_wm_actions_t) :=
  let view := choose_view focus source
  match wayfire_view_has_data view above_key with
  | Except.error e => Except.error e
  | Except.ok has => Except.ok (set_keep_above_state p view (!has))

/-- Method `execute_for_selected_view`. -/
def execute_for_selected_view (p : wayfire_wm_actions_t) (focus : focus_t)
    (source : activator_source_t)
    (for_view : wayfire_wm_actions_t → view_t → Bool × wayfire_wm_actions_t) :
    Bool × wayfire_wm_actions_t :=
  match choose_view focus source with
  | none => (false, p)
  | some v => if !p.can_activate_plugin then (false, p) else for_view p v

/-- The view is among `output->workspace->get_views_in_layer(mask,
include_minimized)`: its node hangs in a layer of the mask, and it is not
minimized unless minimized views are asked for. -/
def in_layers (mask : layer_mask_t) (include_minimized : Bool) (pv : output_view_t) : Bool :=
  (match pv.parent.layer_of with
    | some l => mask l
    | none => false) && (include_minimized || !pv.view.minimized)

/-- Call `output->workspace->get_views_in_layer(mask, include_minimized)`;
the second argument defaults to false. -/
def get_views_in_layer (views : List output_view_t) (mask : layer_mask_t)
    (include_minimized : Bool) : List output_view_t :=
  views.filter (in_layers mask include_minimized)

/-- A range-for loop over `get_views_in_layer(mask, include_minimized)` whose
body acts on the view it visits only: the views of the output after the loop
and the requests the loop sent, in order. -/
def for_views_in_layer (mask : layer_mask_t) (include_minimized : Bool)
    (body : view_t → view_t × List wm_request_t) :
    List output_view_t → List output_view_t × List wm_request_t
  | [] => ([], [])
  | pv :: rest =>
    let r := for_views_in_layer mask include_minimized body rest
    if in_layers mask include_minimized pv then
      ({ pv with view := (body pv.view).1 } :: r.1, (body pv.view).2 ++ r.2)
    else (pv :: r.1, r.2)

/-- Body of the loop of `on_toggle_showdesktop`. -/
def showdesktop_minimize (policy : minimize_policy_t) (view : view_t) :
    view_t × List wm_request_t :=
  if !view.minimized then
    let v := view.minimize_request policy true
    let v := v.store_data showdesktop_key
    (v, [wm_request_t.minimize_request view.id true])
  else (view, [])

/-- Body of the loop of `disable_showdesktop`. -/
def showdesktop_restore (policy : minimize_policy_t) (view : view_t) :
    view_t × List wm_request_t :=
  if view.has_data showdesktop_key then
    let v := view.erase_data showdesktop_key
    let v := v.minimize_request policy false
    (v, [wm_request_t.minimize_request view.id false])
  else (view, [])

/-- Method `wayfire_wm_actions_t::disable_showdesktop`. -/
def disable_showdesktop (policy : minimize_policy_t) (p : wayfire_wm_actions_t) :
    wayfire_wm_actions_t :=
  let p := { p with view_attached_connected := false }
  let p := { p with workspace_changed_connected := false }
  let p := { p with view_minimized_connected := false }
  let r := for_views_in_layer ALL_LAYERS true (showdesktop_restore policy) p.views
  let p := { p with views := r.1, requests := p.requests ++ r.2 }
  { p with showdesktop_active := false }

/-- Activator callback `on_toggle_showdesktop`. -/
def on_toggle_showdesktop (policy : minimize_policy_t) (p : wayfire_wm_actions_t) :
    Bool × wayfire_wm_actions_t :=
  let p := { p with showdesktop_active := !p.showdesktop_active }
  if p.showdesktop_active then
    let r := for_views_in_layer WM_LAYERS false (showdesktop_minimize policy) p.views
    let p := { p with views := r.1, requests := p.requests ++ r.2 }
    let p := { p with view_attached_connected := true }
    let p := { p with workspace_changed_connected := true }
    let p := { p with view_minimized_connected := true }
    let p := { p with on_view_mapped_connected := true }
    (true, p)
  else
    let p := disable_showdesktop policy p
    (true, p)

/-! ### Concrete instances -/

/-- A toplevel view for concrete instances, under the cursor. -/
def example_cursor_view : view_t :=
  { id := 1, role := view_role_t.VIEW_ROLE_TOPLEVEL, minimized := false, mapped := true,
    data := [] }

/-- A second toplevel view for concrete instances, the active one. -/
def example_active_view : view_t :=
  { id := 2, role := view_role_t.VIEW_ROLE_TOPLEVEL, minimized := false, mapped := true,
    data := [] }

/-- A compositor that carries out a minimize request on a mapped view and
ignores it on others. -/
def example_policy : minimize_policy_t := fun v state => if v.mapped then state else v.minimized

/-- An output for concrete instances: a window (1) and a minimized window (2)
in the workspace layer and a panel (3) in the top layer; show-desktop is
inactive and no view carries its marker. -/
def example_output : wayfire_wm_actions_t :=
  { showdesktop_active := false, view_attached_connected := false,
    workspace_changed_connected := false, view_minimized_connected := false,
    on_view_mapped_connected := false, can_activate_plugin := true,
    views :=
      [ { parent := node_parent_t.layer layer_t.LAYER_WORKSPACE,
          view := { id := 1, role := view_role_t.VIEW_ROLE_TOPLEVEL, minimized := false,
                    mapped := true, data := [] } },
        { parent := node_parent_t.layer layer_t.LAYER_WORKSPACE,
          view := { id := 2, role := view_role_t.VIEW_ROLE_TOPLEVEL, minimized := true,
                    mapped := true, data := [] } },
        { parent := node_parent_t.layer layer_t.LAYER_TOP,
          view := { id := 3, role := view_role_t.VIEW_ROLE_DESKTOP_ENVIRONMENT,
                    minimized := false, mapped := true, data := [] } } ],
    requests := [] }

/-- An output for concrete instances with show-desktop inactive and one
minimized window (7) that still carries the show-desktop marker. -/
def example_marked_output : wayfire_wm_actions_t :=
  { showdesktop_active := false, view_attached_connected := false,
    workspace_changed_connected := false, view_minimized_connected := false,
    on_view_mapped_connected := false, can_activate_plugin := true,
    views :=
      [ { parent := node_parent_t.layer layer_t.LAYER_WORKSPACE,
          view := { id := 7, role := view_role_t.VIEW_ROLE_TOPLEVEL, minimized := true,
                    mapped := true, data := ["wm-actions-showdesktop"] } } ],
    requests := [] }

end WmActions

/-! # Properties -/

namespace Decor

open decoration_action_t

variable {L : Type}

/-! ## Machine integers -/

theorem wrap_int_of_is_int {z : Int} (h : is_int z) : wrap_int z = z := by
  unfold is_int INT_MIN INT_MAX at h
  unfold wrap_int
  omega

theorem is_int_wrap_int (z : Int) : is_int (wrap_int z) := by
  unfold is_int INT_MIN INT_MAX wrap_int
  omega

theorem wrap_int_zero : wrap_int 0 = 0 := by decide

/-! ## Frame arithmetic -/

/-- C1: `calculate_resize_size` returns dimensions that are at least 1 for every
requested size and every thickness and title-bar height, and as long as the
subtractions stay in the range of an int it returns exactly
(max (w - 2 T) 1, max (h - T - H) 1). -/
theorem calculate_resize_size_clamps (s : simple_decoration_surface L) (w h : Int) :
    (1 ≤ (calculate_resize_size s w h).1 ∧ 1 ≤ (calculate_resize_size s w h).2) ∧
    (is_int (2 * s.current_thickness) → is_int (w - 2 * s.current_thickness) →
      is_int (s.current_thickness + s.current_titlebar) →
      is_int (h - (s.current_thickness + s.current_titlebar)) →
      calculate_resize_size s w h =
        (max (w - 2 * s.current_thickness) 1,
         max (h - s.current_thickness - s.current_titlebar) 1)) := by
  refine ⟨⟨le_max_right _ _, le_max_right _ _⟩, ?_⟩
  intro h2 hw ht hh
  simp only [calculate_resize_size, int_sub, int_mul, int_add]
  rw [wrap_int_of_is_int h2, wrap_int_of_is_int hw, wrap_int_of_is_int ht,
    wrap_int_of_is_int hh, Int.sub_sub]

theorem calculate_resize_size_clamps_witness :
    (is_int (2 * 4) ∧ is_int (300 - 2 * 4) ∧ is_int (4 + 28) ∧ is_int (200 - (4 + 28))) ∧
    calculate_resize_size (example_surface false 0) 300 200 = (292, 168) ∧
    calculate_resize_size (example_surface false 0) 5 (-7) = (1, 1) :=
  ⟨by decide,
   (calculate_resize_size_clamps (example_surface false 0) 300 200).2
     (by decide) (by decide) (by decide) (by decide),
   (calculate_resize_size_clamps (example_surface false 0) 5 (-7)).2
     (by decide) (by decide) (by decide) (by decide)⟩

/-- C2: for a content geometry whose width and height are ints that are at
least 1, `calculate_resize_size` applied to the width and height of
`expand_wm_geometry` gives the width and height back, for every thickness and
title-bar height. The wrapped arithmetic cancels, so the statement needs no
hypothesis on the range of the intermediate sums. -/
theorem calculate_resize_size_expand_wm_geometry (s : simple_decoration_surface L)
    (g : geometry_t) (hw : is_int g.width) (hh : is_int g.height)
    (hw1 : 1 ≤ g.width) (hh1 : 1 ≤ g.height) :
    calculate_resize_size s (expand_wm_geometry s g).width (expand_wm_geometry s g).height =
      (g.width, g.height) := by
  unfold is_int INT_MIN INT_MAX at hw hh
  have e1 : int_sub (int_add g.width (int_mul 2 s.current_thickness))
      (int_mul 2 s.current_thickness) = g.width := by
    unfold int_sub int_add int_mul wrap_int
    omega
  have e2 : int_sub (int_add g.height (int_add s.current_thickness s.current_titlebar))
      (int_add s.current_thickness s.current_titlebar) = g.height := by
    unfold int_sub int_add wrap_int
    omega
  simp only [calculate_resize_size, expand_wm_geometry, e1, e2]
  rw [max_eq_left hw1, max_eq_left hh1]

theorem calculate_resize_size_expand_wm_geometry_witness :
    (is_int 300 ∧ is_int 200 ∧ (1 : Int) ≤ 300 ∧ (1 : Int) ≤ 200) ∧
    calculate_resize_size (example_surface false 0)
      (expand_wm_geometry (example_surface false 0) (example_view false 0).wm_geometry).width
      (expand_wm_geometry (example_surface false 0) (example_view false 0).wm_geometry).height
      = (300, 200) :=
  ⟨by decide,
   calculate_resize_size_expand_wm_geometry (example_surface false 0)
     (example_view false 0).wm_geometry (by decide) (by decide) (by decide) (by decide)⟩

/-- C3: as long as the operations stay in the range of an int,
`expand_wm_geometry` maps g to (g.x - T, g.y - H, g.width + 2 T,
g.height + T + H) for the thickness T and the title-bar height H; the origin of
the result is the origin of g plus `get_offset`, and the right and the bottom
edge of the result lie T beyond those of g. -/
theorem expand_wm_geometry_grows (s : simple_decoration_surface L) (g : geometry_t)
    (hx : is_int (g.x - s.current_thickness)) (hy : is_int (g.y - s.current_titlebar))
    (h2 : is_int (2 * s.current_thickness))
    (hw : is_int (g.width + 2 * s.current_thickness))
    (ht : is_int (s.current_thickness + s.current_titlebar))
    (hh : is_int (g.height + (s.current_thickness + s.current_titlebar)))
    (hnt : is_int (-s.current_thickness)) (hnh : is_int (-s.current_titlebar)) :
    expand_wm_geometry s g =
      { x := g.x - s.current_thickness, y := g.y - s.current_titlebar,
        width := g.width + 2 * s.current_thickness,
        height := g.height + s.current_thickness + s.current_titlebar } ∧
    (expand_wm_geometry s g).x = g.x + (get_offset s).x ∧
    (expand_wm_geometry s g).y = g.y + (get_offset s).y ∧
    (expand_wm_geometry s g).x + (expand_wm_geometry s g).width =
      g.x + g.width + s.current_thickness ∧
    (expand_wm_geometry s g).y + (expand_wm_geometry s g).height =
      g.y + g.height + s.current_thickness := by
  have e : expand_wm_geometry s g =
      { x := g.x - s.current_thickness, y := g.y - s.current_titlebar,
        width := g.width + 2 * s.current_thickness,
        height := g.height + s.current_thickness + s.current_titlebar } := by
    simp only [expand_wm_geometry, int_sub, int_add, int_mul]
    rw [wrap_int_of_is_int hx, wrap_int_of_is_int hy, wrap_int_of_is_int h2,
      wrap_int_of_is_int hw, wrap_int_of_is_int ht, wrap_int_of_is_int hh, Int.add_assoc]
  refine ⟨e, ?_, ?_, ?_, ?_⟩
  · rw [e]; simp only [get_offset, int_neg]; rw [wrap_int_of_is_int hnt]; omega
  · rw [e]; simp only [get_offset, int_neg]; rw [wrap_int_of_is_int hnh]; omega
  · rw [e]; simp only; omega
  · rw [e]; simp only; omega

theorem expand_wm_geometry_grows_witness :
    (is_int (10 - 4) ∧ is_int (20 - 28) ∧ is_int (2 * 4) ∧ is_int (300 + 2 * 4) ∧
      is_int (4 + 28) ∧ is_int (200 + (4 + 28)) ∧ is_int (-4) ∧ is_int (-28)) ∧
    expand_wm_geometry (example_surface false 0) (example_view false 0).wm_geometry =
      { x := 6, y := -8, width := 308, height := 232 } :=
  ⟨by decide,
   (expand_wm_geometry_grows (example_surface false 0) (example_view false 0).wm_geometry
     (by decide) (by decide) (by decide) (by decide) (by decide) (by decide) (by decide)
     (by decide)).1⟩

/-! ## Fullscreen collapse -/

theorem update_decoration_size_fullscreen (ops : layout_ops L)
    (s : simple_decoration_surface L) (hf : s.view.fullscreen = true) :
    (update_decoration_size ops s).view = s.view ∧
    (update_decoration_size ops s).current_thickness = 0 ∧
    (update_decoration_size ops s).current_titlebar = 0 ∧
    (update_decoration_size ops s).cached_region = [] := by
  simp [update_decoration_size, hf, region_t.clear]

theorem handle_action_frame (s : simple_decoration_surface L) (a : action_response_t) :
    (handle_action s a).view = s.view ∧
    (handle_action s a).current_thickness = s.current_thickness ∧
    (handle_action s a).current_titlebar = s.current_titlebar ∧
    (handle_action s a).cached_region = s.cached_region ∧
    (handle_action s a).layout = s.layout := by
  unfold handle_action send_move_request send_resize_request
  split <;> try split
  all_goals simp

theorem surface_step_collapsed (ops : layout_ops L) (s : simple_decoration_surface L)
    (e : surface_event) (he : e.keeps_fullscreen = true)
    (hf : s.view.fullscreen = true) (ht : s.current_thickness = 0)
    (hb : s.current_titlebar = 0) (hr : s.cached_region = []) :
    (surface_step ops s e).view.fullscreen = true ∧
    (surface_step ops s e).current_thickness = 0 ∧
    (surface_step ops s e).current_titlebar = 0 ∧
    (surface_step ops s e).cached_region = [] := by
  cases e with
  | pointer_enter x y => simp [surface_step, on_pointer_enter, hf, ht, hb, hr]
  | pointer_leave => simp [surface_step, on_pointer_leave, hf, ht, hb, hr]
  | pointer_motion x y => simp [surface_step, on_pointer_motion, hf, ht, hb, hr]
  | pointer_button b st =>
    simp only [surface_step, on_pointer_button]
    split
    · exact ⟨hf, ht, hb, hr⟩
    · obtain ⟨h1, h2, h3, h4, _⟩ := handle_action_frame
        { s with layout := (ops.handle_press_event s.layout (decide (st = WLR_BUTTON_PRESSED))).1 }
        (ops.handle_press_event s.layout (decide (st = WLR_BUTTON_PRESSED))).2
      rw [h1, h2, h3, h4]
      exact ⟨hf, ht, hb, hr⟩
  | touch_down x y =>
    simp only [surface_step, on_touch_down]
    obtain ⟨h1, h2, h3, h4, _⟩ := handle_action_frame
      { s with layout := (ops.handle_press_event (ops.handle_motion s.layout x y) true).1 }
      (ops.handle_press_event (ops.handle_motion s.layout x y) true).2
    rw [h1, h2, h3, h4]
    exact ⟨hf, ht, hb, hr⟩
  | touch_motion x y => simp [surface_step, on_touch_motion, hf, ht, hb, hr]
  | touch_up =>
    simp only [surface_step, on_touch_up]
    obtain ⟨h1, h2, h3, h4, _⟩ := handle_action_frame
      { s with layout := (ops.handle_press_event s.layout false).1 }
      (ops.handle_press_event s.layout false).2
    rw [h1, h2, h3, h4]
    exact ⟨hf, ht, hb, hr⟩
  | view_activated a =>
    simp only [surface_step, notify_view_activated, view_damage]
    split <;> exact ⟨hf, ht, hb, hr⟩
  | view_resized g =>
    simp [surface_step, notify_view_resized, view_damage, hf, ht, hb, hr]
  | view_tiled => exact ⟨hf, ht, hb, hr⟩
  | view_fullscreen =>
    obtain ⟨h1, h2, h3, h4⟩ := update_decoration_size_fullscreen ops s hf
    have hf2 : (update_decoration_size ops s).view.fullscreen = true := by rw [h1]; exact hf
    have hn : notify_view_fullscreen ops s = update_decoration_size ops s := by
      simp [notify_view_fullscreen, hf2]
    simp only [surface_step]
    rw [hn]
    exact ⟨hf2, h2, h3, h4⟩
  | view_changed v =>
    simp only [surface_event.keeps_fullscreen] at he
    exact ⟨he, ht, hb, hr⟩

theorem surface_run_collapsed (ops : layout_ops L) (es : List surface_event) :
    ∀ s : simple_decoration_surface L, (∀ e ∈ es, e.keeps_fullscreen = true) →
      s.view.fullscreen = true → s.current_thickness = 0 → s.current_titlebar = 0 →
      s.cached_region = [] →
      (surface_run ops s es).view.fullscreen = true ∧
      (surface_run ops s es).current_thickness = 0 ∧
      (surface_run ops s es).current_titlebar = 0 ∧
      (surface_run ops s es).cached_region = [] := by
  induction es with
  | nil => intro s _ hf ht hb hr; exact ⟨hf, ht, hb, hr⟩
  | cons e es ih =>
    intro s hes hf ht hb hr
    obtain ⟨hf2, ht2, hb2, hr2⟩ :=
      surface_step_collapsed ops s e (hes e (List.mem_cons_self e es)) hf ht hb hr
    exact ih (surface_step ops s e) (fun e2 h2 => hes e2 (List.mem_cons_of_mem e h2))
      hf2 ht2 hb2 hr2

theorem expand_wm_geometry_of_collapsed (s : simple_decoration_surface L)
    (ht : s.current_thickness = 0) (hb : s.current_titlebar = 0) (g : geometry_t)
    (hg : g.is_valid) : expand_wm_geometry s g = g := by
  obtain ⟨hx, hy, hw, hh⟩ := hg
  simp only [expand_wm_geometry, int_sub, int_add, int_mul, ht, hb, mul_zero, add_zero,
    sub_zero, wrap_int_zero]
  rw [wrap_int_of_is_int hx, wrap_int_of_is_int hy, wrap_int_of_is_int hw,
    wrap_int_of_is_int hh]

/-- C4: when the decoration is constructed for a fullscreen window, or
`notify_view_fullscreen` runs while the window is fullscreen, then after any
sequence of later calls (among them `notify_view_resized` and
`notify_view_activated`) and changes of the view that leave the window
fullscreen, thickness and title-bar height are 0 and the cached region is
empty; `get_offset` is (0, 0), `expand_wm_geometry` is the identity on every
geometry of ints and `accepts_input` is false at every point. -/
theorem fullscreen_collapse_invariant (ops : layout_ops L)
    (s₀ : simple_decoration_surface L) (es : List surface_event)
    (hstart :
      (∃ theme layout view, view.fullscreen = true ∧
        s₀ = simple_decoration_surface.construct ops theme layout view) ∨
      (∃ s : simple_decoration_surface L, s.view.fullscreen = true ∧
        s₀ = notify_view_fullscreen ops s))
    (hes : ∀ e ∈ es, e.keeps_fullscreen = true) :
    (surface_run ops s₀ es).current_thickness = 0 ∧
    (surface_run ops s₀ es).current_titlebar = 0 ∧
    (surface_run ops s₀ es).cached_region = [] ∧
    get_offset (surface_run ops s₀ es) = { x := 0, y := 0 } ∧
    (∀ g : geometry_t, g.is_valid → expand_wm_geometry (surface_run ops s₀ es) g = g) ∧
    (∀ x y : Int, accepts_input (surface_run ops s₀ es) x y = false) := by
  have h0 : s₀.view.fullscreen = true ∧ s₀.current_thickness = 0 ∧
      s₀.current_titlebar = 0 ∧ s₀.cached_region = [] := by
    rcases hstart with ⟨theme, layout, view, hv, rfl⟩ | ⟨s, hs, rfl⟩
    · obtain ⟨h1, h2, h3, h4⟩ := update_decoration_size_fullscreen ops
        { _mapped := true, current_thickness := 0, current_titlebar := 0, view := view,
          width := 100, height := 100, active := true, theme := theme, layout := layout,
          cached_region := [], requests := [], damage_count := 0 } hv
      refine ⟨?_, h2, h3, h4⟩
      unfold simple_decoration_surface.construct
      rw [h1]; exact hv
    · obtain ⟨h1, h2, h3, h4⟩ := update_decoration_size_fullscreen ops s hs
      have hf2 : (update_decoration_size ops s).view.fullscreen = true := by rw [h1]; exact hs
      have hn : notify_view_fullscreen ops s = update_decoration_size ops s := by
        simp [notify_view_fullscreen, hf2]
      rw [hn]
      exact ⟨hf2, h2, h3, h4⟩
  obtain ⟨_, ht, hb, hr⟩ := surface_run_collapsed ops es s₀ hes h0.1 h0.2.1 h0.2.2.1 h0.2.2.2
  refine ⟨ht, hb, hr, ?_, ?_, ?_⟩
  · simp only [get_offset, ht, hb, int_neg, neg_zero, wrap_int_zero]
  · exact fun g hg => expand_wm_geometry_of_collapsed _ ht hb g hg
  · intro x y
    simp only [accepts_input, hr, region_t.contains_point, List.any_nil]

theorem fullscreen_collapse_invariant_witness :
    (example_view true 0).fullscreen = true ∧
    (surface_run example_layout_ops (example_surface true 0)
      [surface_event.view_resized { x := 0, y := 0, width := 1920, height := 1080 },
       surface_event.view_activated false,
       surface_event.view_changed (example_view true 15),
       surface_event.pointer_motion 5 5]).current_thickness = 0 ∧
    expand_wm_geometry
      (surface_run example_layout_ops (example_surface true 0)
        [surface_event.view_resized { x := 0, y := 0, width := 1920, height := 1080 },
         surface_event.view_activated false,
         surface_event.view_changed (example_view true 15),
         surface_event.pointer_motion 5 5])
      { x := 0, y := 0, width := 1920, height := 1080 } =
      { x := 0, y := 0, width := 1920, height := 1080 } ∧
    accepts_input
      (surface_run example_layout_ops (example_surface true 0)
        [surface_event.view_resized { x := 0, y := 0, width := 1920, height := 1080 },
         surface_event.view_activated false,
         surface_event.view_changed (example_view true 15),
         surface_event.pointer_motion 5 5]) 5 5 = false :=
  have h := fullscreen_collapse_invariant example_layout_ops (example_surface true 0)
    [surface_event.view_resized { x := 0, y := 0, width := 1920, height := 1080 },
     surface_event.view_activated false,
     surface_event.view_changed (example_view true 15),
     surface_event.pointer_motion 5 5]
    (Or.inl ⟨example_theme, { width := 100, height := 100 }, example_view true 0, rfl, rfl⟩)
    (by decide)
  ⟨rfl, h.1, h.2.2.2.2.1 _ (by decide), h.2.2.2.2.2 5 5⟩

/-! ## Theme metrics outside fullscreen -/

/-- C5, as stated, fails: for a window that is not fullscreen and a theme with
border 4 and title height 24 the constructor leaves a title-bar height of 28,
not 24, and `get_offset` is (-4, -28), not (-4, -24). -/
theorem title_bar_height_includes_border :
    (example_surface false 0).view.fullscreen = false ∧
    (example_surface false 0).theme = { border_size := 4, title_height := 24 } ∧
    (example_surface false 0).current_thickness = 4 ∧
    (example_surface false 0).current_titlebar = 28 ∧
    (example_surface false 0).current_titlebar ≠ (example_surface false 0).theme.title_height ∧
    get_offset (example_surface false 0) = { x := -4, y := -28 } ∧
    get_offset (example_surface false 0) ≠
      { x := -(example_surface false 0).theme.border_size,
        y := -(example_surface false 0).theme.title_height } := by
  decide

theorem update_decoration_size_windowed (ops : layout_ops L)
    (s : simple_decoration_surface L) (hf : s.view.fullscreen = false) :
    (update_decoration_size ops s).view = s.view ∧
    (update_decoration_size ops s).theme = s.theme ∧
    (update_decoration_size ops s).layout = s.layout ∧
    (update_decoration_size ops s).current_thickness = s.theme.border_size ∧
    (update_decoration_size ops s).current_titlebar =
      int_add s.theme.title_height s.theme.border_size ∧
    (update_decoration_size ops s).cached_region = ops.calculate_region s.layout := by
  simp [update_decoration_size, hf, decoration_theme_t.get_border_size,
    decoration_theme_t.get_title_height]

theorem notify_view_resized_frame (ops : layout_ops L) (s : simple_decoration_surface L)
    (g : geometry_t) :
    (notify_view_resized ops s g).view = s.view ∧
    (notify_view_resized ops s g).theme = s.theme ∧
    (notify_view_resized ops s g).current_thickness = s.current_thickness ∧
    (notify_view_resized ops s g).current_titlebar = s.current_titlebar := by
  simp only [notify_view_resized, view_damage]
  split <;> simp

/-- C5, amended: for a window that is not fullscreen, after construction and
after `notify_view_fullscreen` the thickness equals the border size of the
theme and the title-bar height equals the title height of the theme plus its
border size, so `get_offset` returns (-border_size, -(title_height +
border_size)), as long as the sum and the two negations stay in the range of an
int. -/
theorem decoration_size_from_theme (ops : layout_ops L) (theme : decoration_theme_t)
    (layout : L) (view : view_t) (s : simple_decoration_surface L)
    (hv : view.fullscreen = false) (hs : s.view.fullscreen = false) (hst : s.theme = theme)
    (hsum : is_int (theme.title_height + theme.border_size))
    (hnb : is_int (-theme.border_size))
    (hnt : is_int (-(theme.title_height + theme.border_size))) :
    ((simple_decoration_surface.construct ops theme layout view).current_thickness =
        theme.border_size ∧
      (simple_decoration_surface.construct ops theme layout view).current_titlebar =
        theme.title_height + theme.border_size ∧
      get_offset (simple_decoration_surface.construct ops theme layout view) =
        { x := -theme.border_size, y := -(theme.title_height + theme.border_size) }) ∧
    ((notify_view_fullscreen ops s).current_thickness = theme.border_size ∧
      (notify_view_fullscreen ops s).current_titlebar =
        theme.title_height + theme.border_size ∧
      get_offset (notify_view_fullscreen ops s) =
        { x := -theme.border_size, y := -(theme.title_height + theme.border_size) }) := by
  constructor
  · obtain ⟨_, _, _, h4, h5, _⟩ := update_decoration_size_windowed ops
      { _mapped := true, current_thickness := 0, current_titlebar := 0, view := view,
        width := 100, height := 100, active := true, theme := theme, layout := layout,
        cached_region := [], requests := [], damage_count := 0 } hv
    simp only [int_add] at h5
    rw [wrap_int_of_is_int hsum] at h5
    unfold simple_decoration_surface.construct
    refine ⟨h4, h5, ?_⟩
    simp only [get_offset, int_neg, h4, h5]
    rw [wrap_int_of_is_int hnb, wrap_int_of_is_int hnt]
  · obtain ⟨h1, _, _, h4, h5, _⟩ := update_decoration_size_windowed ops s hs
    rw [hst] at h4 h5
    simp only [int_add] at h5
    rw [wrap_int_of_is_int hsum] at h5
    have hf2 : (update_decoration_size ops s).view.fullscreen = false := by rw [h1]; exact hs
    have hn : notify_view_fullscreen ops s =
        notify_view_resized ops (update_decoration_size ops s)
          (update_decoration_size ops s).view.wm_geometry := by
      simp [notify_view_fullscreen, hf2]
    obtain ⟨_, _, r3, r4⟩ := notify_view_resized_frame ops (update_decoration_size ops s)
      (update_decoration_size ops s).view.wm_geometry
    rw [hn]
    refine ⟨r3.trans h4, r4.trans h5, ?_⟩
    simp only [get_offset, int_neg, r3, r4, h4, h5]
    rw [wrap_int_of_is_int hnb, wrap_int_of_is_int hnt]

theorem decoration_size_from_theme_witness :
    ((example_view false 0).fullscreen = false ∧ is_int (24 + 4) ∧ is_int (-4) ∧
      is_int (-(24 + 4))) ∧
    get_offset (example_surface false 0) = { x := -4, y := -28 } ∧
    get_offset (notify_view_fullscreen example_layout_ops (example_surface false 0)) =
      { x := -4, y := -28 } :=
  have h := decoration_size_from_theme example_layout_ops example_theme
    { width := 100, height := 100 } (example_view false 0) (example_surface false 0)
    rfl rfl rfl (by decide) (by decide) (by decide)
  ⟨by decide, h.1.2.2, h.2.2.2⟩

/-! ## Executing the action of the layout engine -/

/-- C6: `handle_action` appends exactly the request that belongs to the action
and changes nothing else: Move gives one move-request on the output, Resize
with mask e one resize-request with the same e, Close gives close(), Minimize
gives minimize_request(true), ToggleMaximize gives tile_request(0) when the
view has a tiled edge and tile_request(all edges) when it has none, and the
none action leaves the surface as it is. -/
theorem handle_action_requests (s : simple_decoration_surface L) (e : Nat) :
    handle_action s { action := DECORATION_ACTION_MOVE, edges := e } =
      { s with requests := s.requests ++ [request_t.move_request] } ∧
    handle_action s { action := DECORATION_ACTION_RESIZE, edges := e } =
      { s with requests := s.requests ++ [request_t.resize_request e] } ∧
    handle_action s { action := DECORATION_ACTION_CLOSE, edges := e } =
      { s with requests := s.requests ++ [request_t.close] } ∧
    handle_action s { action := DECORATION_ACTION_MINIMIZE, edges := e } =
      { s with requests := s.requests ++ [request_t.minimize_request true] } ∧
    (s.view.tiled_edges ≠ 0 →
      handle_action s { action := DECORATION_ACTION_TOGGLE_MAXIMIZE, edges := e } =
        { s with requests := s.requests ++ [request_t.tile_request 0] }) ∧
    (s.view.tiled_edges = 0 →
      handle_action s { action := DECORATION_ACTION_TOGGLE_MAXIMIZE, edges := e } =
        { s with requests := s.requests ++ [request_t.tile_request TILED_EDGES_ALL] }) ∧
    handle_action s { action := DECORATION_ACTION_NONE, edges := e } = s := by
  refine ⟨rfl, rfl, rfl, rfl, ?_, ?_, rfl⟩
  · intro h
    simp only [handle_action, h, ne_eq, not_false_eq_true, if_true]
  · intro h
    simp only [handle_action, h, ne_eq, not_true_eq_false, if_false]

theorem handle_action_requests_witness :
    ((example_input_surface 3).view.tiled_edges ≠ 0 ∧
      (example_input_surface 0).view.tiled_edges = 0) ∧
    (handle_action (example_input_surface 3)
      { action := DECORATION_ACTION_TOGGLE_MAXIMIZE, edges := 0 }).requests =
      [request_t.tile_request 0] ∧
    (handle_action (example_input_surface 0)
      { action := DECORATION_ACTION_TOGGLE_MAXIMIZE, edges := 0 }).requests =
      [request_t.tile_request 15] :=
  ⟨by decide,
   congrArg simple_decoration_surface.requests
     ((handle_action_requests (example_input_surface 3) 0).2.2.2.2.1 (by decide)),
   congrArg simple_decoration_surface.requests
     ((handle_action_requests (example_input_surface 0) 0).2.2.2.2.2.1 (by decide))⟩

/-! ## Touch input -/

/-- C7: for every layout engine, `on_touch_down` at (x, y) is `on_pointer_motion`
at (x, y) followed by a press of the left button, and `on_touch_up` is a release
of the left button followed by `on_pointer_leave`: the surface after the call,
layout and requests included, is the same. With the layout engine of the
specification the interaction state after `on_touch_up` is Idle. -/
theorem touch_reuses_pointer_state_machine :
    (∀ (M : Type) (ops : layout_input_ops M) (s : simple_decoration_surface M) (x y : Int),
      on_touch_down ops s x y =
        on_pointer_button ops (on_pointer_motion ops s x y) BTN_LEFT WLR_BUTTON_PRESSED) ∧
    (∀ (M : Type) (ops : layout_input_ops M) (s : simple_decoration_surface M),
      on_touch_up ops s =
        on_pointer_leave ops (on_pointer_button ops s BTN_LEFT WLR_BUTTON_RELEASED)) ∧
    (∀ s : simple_decoration_surface decoration_layout_t,
      (on_touch_up spec_layout_input_ops s).layout.state = interaction_state_t.Idle) := by
  refine ⟨?_, ?_, ?_⟩
  · intro M ops s x y
    simp [on_touch_down, on_pointer_button, on_pointer_motion]
  · intro M ops s
    simp [on_touch_up, on_pointer_button, on_pointer_leave, WLR_BUTTON_RELEASED,
      WLR_BUTTON_PRESSED]
  · intro s
    simp [on_touch_up, spec_layout_input_ops, decoration_layout_t.handle_focus_lost]

/-! ## Resize -/

/-- C8: for a window that is not fullscreen, when `notify_view_resized` returns
for a geometry g, `get_size` is (g.width, g.height), the layout is the layout
before the call resized to (g.width, g.height), and the cached region is
`calculate_region` of that resized layout; the same holds, with g the geometry
of the view, when `notify_view_fullscreen` returns. -/
theorem notify_view_resized_recomputes (ops : layout_ops L)
    (s : simple_decoration_surface L) (g : geometry_t) (hf : s.view.fullscreen = false) :
    (get_size (notify_view_resized ops s g) = { width := g.width, height := g.height } ∧
      (notify_view_resized ops s g).layout = ops.resize s.layout g.width g.height ∧
      (notify_view_resized ops s g).cached_region =
        ops.calculate_region (ops.resize s.layout g.width g.height)) ∧
    (get_size (notify_view_fullscreen ops s) =
        { width := s.view.wm_geometry.width, height := s.view.wm_geometry.height } ∧
      (notify_view_fullscreen ops s).layout =
        ops.resize s.layout s.view.wm_geometry.width s.view.wm_geometry.height ∧
      (notify_view_fullscreen ops s).cached_region =
        ops.calculate_region
          (ops.resize s.layout s.view.wm_geometry.width s.view.wm_geometry.height)) := by
  have key : ∀ (t : simple_decoration_surface L) (b : geometry_t), t.view.fullscreen = false →
      get_size (notify_view_resized ops t b) = { width := b.width, height := b.height } ∧
      (notify_view_resized ops t b).layout = ops.resize t.layout b.width b.height ∧
      (notify_view_resized ops t b).cached_region =
        ops.calculate_region (ops.resize t.layout b.width b.height) := by
    intro t b ht
    simp [notify_view_resized, view_damage, get_size, ht]
  refine ⟨key s g hf, ?_⟩
  obtain ⟨h1, _, h3, _⟩ := update_decoration_size_windowed ops s hf
  have hf2 : (update_decoration_size ops s).view.fullscreen = false := by rw [h1]; exact hf
  have hn : notify_view_fullscreen ops s =
      notify_view_resized ops (update_decoration_size ops s)
        (update_decoration_size ops s).view.wm_geometry := by
    simp [notify_view_fullscreen, hf2]
  have k := key (update_decoration_size ops s) (update_decoration_size ops s).view.wm_geometry hf2
  rw [h1, h3] at k
  rw [hn, h1]
  exact k

theorem notify_view_resized_recomputes_witness :
    (example_surface false 0).view.fullscreen = false ∧
    get_size (notify_view_resized example_layout_ops (example_surface false 0)
      { x := 0, y := 0, width := 640, height := 480 }) = { width := 640, height := 480 } ∧
    (notify_view_resized example_layout_ops (example_surface false 0)
      { x := 0, y := 0, width := 640, height := 480 }).cached_region =
      [{ x := 0, y := 0, width := 640, height := 480 }] ∧
    (notify_view_fullscreen example_layout_ops (example_surface false 0)).cached_region =
      [{ x := 0, y := 0, width := 300, height := 200 }] :=
  have h := notify_view_resized_recomputes example_layout_ops (example_surface false 0)
    { x := 0, y := 0, width := 640, height := 480 } rfl
  ⟨rfl, h.1.1, h.1.2.2, h.2.2.2⟩

/-! ## Click commit law -/

theorem find_area_at_contains {areas : List decoration_area_t} {x y : Int}
    {a : decoration_area_t} (h : find_area_at areas x y = some a) :
    a.geometry.contains x y = true := by
  unfold find_area_at at h
  exact @List.find?_some _ (fun b : decoration_area_t => b.geometry.contains x y) a areas h

theorem hover_state_at_ne_armed (areas : List decoration_area_t) (x y : Int)
    (k : button_kind_t) (g : geometry_t) :
    hover_state_at areas x y ≠ interaction_state_t.Armed k g := by
  unfold hover_state_at
  split <;> simp

theorem handle_motion_unarmed (l : decoration_layout_t) (x y : Int)
    (h : ∀ k g, l.state ≠ interaction_state_t.Armed k g) :
    l.handle_motion x y =
      { l with pointer := some { x := x, y := y }, state := hover_state_at l.areas x y } := by
  unfold decoration_layout_t.handle_motion
  split
  · exact absurd ‹l.state = _› (h _ _)
  · rfl

theorem handle_motion_over_area (l : decoration_layout_t) (x y : Int) (a : decoration_area_t)
    (hidle : ∀ k g, l.state ≠ interaction_state_t.Armed k g)
    (h : find_area_at l.areas x y = some a) :
    (l.handle_motion x y).state = interaction_state_t.Hovering a ∧
    (l.handle_motion x y).pointer_over a.geometry = true := by
  rw [handle_motion_unarmed l x y hidle]
  simp [hover_state_at, h, decoration_layout_t.pointer_over, find_area_at_contains h]

theorem handle_motion_armed_inside (l : decoration_layout_t) (x y : Int) (k : button_kind_t)
    (g : geometry_t) (h : l.state = interaction_state_t.Armed k g)
    (hin : g.contains x y = true) :
    (l.handle_motion x y).state = interaction_state_t.Armed k g ∧
    (l.handle_motion x y).pointer_over g = true := by
  unfold decoration_layout_t.handle_motion
  split
  · rename_i k2 g2 h2
    rw [h] at h2
    injection h2 with hk hg
    subst hk; subst hg
    simp [hin, h, decoration_layout_t.pointer_over]
  · rename_i hne
    exact absurd h (hne k g)

theorem handle_motion_armed_outside (l : decoration_layout_t) (x y : Int) (k : button_kind_t)
    (g : geometry_t) (h : l.state = interaction_state_t.Armed k g)
    (hout : g.contains x y = false) :
    ∀ k2 g2, (l.handle_motion x y).state ≠ interaction_state_t.Armed k2 g2 := by
  intro k2 g2
  unfold decoration_layout_t.handle_motion
  split
  · rename_i k3 g3 h3
    rw [h] at h3
    injection h3 with hk hg
    subst hk; subst hg
    simp only [hout, Bool.false_eq_true, if_false]
    exact hover_state_at_ne_armed _ _ _ _ _
  · exact hover_state_at_ne_armed _ _ _ _ _

theorem handle_motions_armed_inside (ms : List point_t) (k : button_kind_t) (g : geometry_t)
    (hin : ∀ m ∈ ms, g.contains m.x m.y = true) :
    ∀ l : decoration_layout_t, l.state = interaction_state_t.Armed k g →
      l.pointer_over g = true →
      (l.handle_motions ms).state = interaction_state_t.Armed k g ∧
      (l.handle_motions ms).pointer_over g = true := by
  induction ms with
  | nil => intro l h hp; exact ⟨h, hp⟩
  | cons m ms ih =>
    intro l h _
    obtain ⟨h1, h2⟩ := handle_motion_armed_inside l m.x m.y k g h
      (hin m (List.mem_cons_self m ms))
    exact ih (fun q hq => hin q (List.mem_cons_of_mem m hq)) (l.handle_motion m.x m.y) h1 h2

theorem handle_motions_unarmed (ms : List point_t) :
    ∀ l : decoration_layout_t, (∀ k g, l.state ≠ interaction_state_t.Armed k g) →
      ∀ k g, (l.handle_motions ms).state ≠ interaction_state_t.Armed k g := by
  induction ms with
  | nil => intro l h; exact h
  | cons m ms ih =>
    intro l h
    refine ih (l.handle_motion m.x m.y) ?_
    intro k g
    rw [handle_motion_unarmed l m.x m.y h]
    exact hover_state_at_ne_armed _ _ _ _ _

theorem handle_press_event_on_button (l : decoration_layout_t) (k : button_kind_t)
    (g : geometry_t)
    (h : l.state = interaction_state_t.Hovering
      { type := decoration_area_type_t.Button k, geometry := g }) :
    (l.handle_press_event true).2 = { action := DECORATION_ACTION_NONE, edges := 0 } ∧
    (l.handle_press_event true).1.state = interaction_state_t.Armed k g ∧
    (l.handle_press_event true).1.pointer = l.pointer := by
  simp [decoration_layout_t.handle_press_event, h]

theorem handle_press_event_release_over (l : decoration_layout_t) (k : button_kind_t)
    (g : geometry_t) (h : l.state = interaction_state_t.Armed k g)
    (hp : l.pointer_over g = true) :
    (l.handle_press_event false).2 = { action := button_action k, edges := 0 } ∧
    (l.handle_press_event false).1.state = interaction_state_t.Hovering
      { type := decoration_area_type_t.Button k, geometry := g } := by
  simp [decoration_layout_t.handle_press_event, h, hp]

theorem handle_press_event_release_unarmed (l : decoration_layout_t)
    (h : ∀ k g, l.state ≠ interaction_state_t.Armed k g) :
    l.handle_press_event false = (l, { action := DECORATION_ACTION_NONE, edges := 0 }) := by
  unfold decoration_layout_t.handle_press_event
  split
  · simp_all
  · exact absurd ‹l.state = _› (h _ _)
  · rfl

theorem handle_action_none (s : simple_decoration_surface L) :
    handle_action s { action := DECORATION_ACTION_NONE, edges := 0 } = s := rfl

theorem handle_action_layout_irrelevant (s : simple_decoration_surface L) (l : L)
    (a : action_response_t) :
    (handle_action { s with layout := l } a).requests = (handle_action s a).requests := by
  unfold handle_action send_move_request send_resize_request
  split <;> try split
  all_goals rfl

theorem on_pointer_button_left_pressed (ops : layout_input_ops L)
    (s : simple_decoration_surface L) :
    on_pointer_button ops s BTN_LEFT WLR_BUTTON_PRESSED =
      handle_action { s with layout := (ops.handle_press_event s.layout true).1 }
        (ops.handle_press_event s.layout true).2 := by
  simp [on_pointer_button]

theorem on_pointer_button_left_released (ops : layout_input_ops L)
    (s : simple_decoration_surface L) :
    on_pointer_button ops s BTN_LEFT WLR_BUTTON_RELEASED =
      handle_action { s with layout := (ops.handle_press_event s.layout false).1 }
        (ops.handle_press_event s.layout false).2 := by
  simp [on_pointer_button, WLR_BUTTON_RELEASED, WLR_BUTTON_PRESSED]

theorem on_pointer_motions_spec (ms : List point_t) :
    ∀ s : simple_decoration_surface decoration_layout_t,
      on_pointer_motions spec_layout_input_ops s ms =
        { s with layout := s.layout.handle_motions ms } := by
  induction ms with
  | nil => intro s; rfl
  | cons m ms ih =>
    intro s
    simp only [on_pointer_motions, decoration_layout_t.handle_motions]
    rw [ih]
    rfl

/-- C9: with the layout engine of the specification, when the pointer is over
a button of kind k (the state is Hovering that button and the recorded point
lies in its geometry g), the press emits no action and arms the button. The
release that follows while the pointer is still over the button, after any
number of motions that stay inside g, emits the action bound to k, one
response, and returns to hovering the button. When a motion leaves g between
press and release, the release emits no action, whatever motions come before
(inside g) and after it. Through `on_pointer_button` the press sends no
request, the release over the button sends exactly the requests of the action
bound to k, and the release after leaving the button sends none. -/
theorem click_commit_law (s : simple_decoration_surface decoration_layout_t)
    (k : button_kind_t) (g : geometry_t)
    (hstate : s.layout.state = interaction_state_t.Hovering
      { type := decoration_area_type_t.Button k, geometry := g })
    (hover : s.layout.pointer_over g = true)
    (inside : List point_t) (hin : ∀ m ∈ inside, g.contains m.x m.y = true)
    (x2 y2 : Int) (hout : g.contains x2 y2 = false) (after : List point_t) :
    (s.layout.handle_press_event true).2.action = DECORATION_ACTION_NONE ∧
    (s.layout.handle_press_event true).1.state = interaction_state_t.Armed k g ∧
    (((s.layout.handle_press_event true).1.handle_motions inside).handle_press_event false).2 =
      { action := button_action k, edges := 0 } ∧
    (((s.layout.handle_press_event true).1.handle_motions inside).handle_press_event
        false).1.state =
      interaction_state_t.Hovering { type := decoration_area_type_t.Button k, geometry := g } ∧
    (((((s.layout.handle_press_event true).1.handle_motions inside).handle_motion
        x2 y2).handle_motions after).handle_press_event false).2.action =
      DECORATION_ACTION_NONE ∧
    (on_pointer_button spec_layout_input_ops s BTN_LEFT WLR_BUTTON_PRESSED).requests =
      s.requests ∧
    (on_pointer_button spec_layout_input_ops
      (on_pointer_motions spec_layout_input_ops
        (on_pointer_button spec_layout_input_ops s BTN_LEFT WLR_BUTTON_PRESSED) inside)
      BTN_LEFT WLR_BUTTON_RELEASED).requests =
      (handle_action s { action := button_action k, edges := 0 }).requests ∧
    (on_pointer_button spec_layout_input_ops
      (on_pointer_motions spec_layout_input_ops
        (on_pointer_motion spec_layout_input_ops
          (on_pointer_motions spec_layout_input_ops
            (on_pointer_button spec_layout_input_ops s BTN_LEFT WLR_BUTTON_PRESSED) inside)
          x2 y2) after)
      BTN_LEFT WLR_BUTTON_RELEASED).requests = s.requests := by
  obtain ⟨hp2, hps, hpp⟩ := handle_press_event_on_button s.layout k g hstate
  have hover2 : (s.layout.handle_press_event true).1.pointer_over g = true := by
    unfold decoration_layout_t.pointer_over at hover ⊢
    rw [hpp]
    exact hover
  obtain ⟨hi1, hi2⟩ := handle_motions_armed_inside inside k g hin
    (s.layout.handle_press_event true).1 hps hover2
  obtain ⟨hr2, hrs⟩ := handle_press_event_release_over
    ((s.layout.handle_press_event true).1.handle_motions inside) k g hi1 hi2
  have hoff := handle_press_event_release_unarmed _
    (handle_motions_unarmed after _
      (handle_motion_armed_outside
        ((s.layout.handle_press_event true).1.handle_motions inside) x2 y2 k g hi1 hout))
  have e1 : on_pointer_button spec_layout_input_ops s BTN_LEFT WLR_BUTTON_PRESSED =
      { s with layout := (s.layout.handle_press_event true).1 } := by
    rw [on_pointer_button_left_pressed]
    simp only [spec_layout_input_ops, hp2]
    exact handle_action_none _
  refine ⟨?_, hps, hr2, hrs, ?_, ?_, ?_, ?_⟩
  · rw [hp2]
  · rw [hoff]
  · rw [e1]
  · rw [e1, on_pointer_motions_spec, on_pointer_button_left_released]
    simp only [spec_layout_input_ops, hr2]
    rw [handle_action_layout_irrelevant]
  · have em : ∀ t : simple_decoration_surface decoration_layout_t,
        on_pointer_motion spec_layout_input_ops t x2 y2 =
          { t with layout := t.layout.handle_motion x2 y2 } := fun _ => rfl
    rw [e1, on_pointer_motions_spec inside, em, on_pointer_motions_spec after,
      on_pointer_button_left_released]
    simp only [spec_layout_input_ops, hoff]
    rw [handle_action_none]

theorem click_commit_law_witness :
    ((on_pointer_motion spec_layout_input_ops (example_input_surface 0) 290 12).layout.state =
        interaction_state_t.Hovering
          { type := decoration_area_type_t.Button button_kind_t.Close,
            geometry := { x := 276, y := 4, width := 20, height := 20 } } ∧
      (on_pointer_motion spec_layout_input_ops (example_input_surface 0)
        290 12).layout.pointer_over { x := 276, y := 4, width := 20, height := 20 } = true) ∧
    (on_pointer_button spec_layout_input_ops
      (on_pointer_motion spec_layout_input_ops (example_input_surface 0) 290 12)
      BTN_LEFT WLR_BUTTON_PRESSED).requests = [] ∧
    (on_pointer_button spec_layout_input_ops
      (on_pointer_motions spec_layout_input_ops
        (on_pointer_button spec_layout_input_ops
          (on_pointer_motion spec_layout_input_ops (example_input_surface 0) 290 12)
          BTN_LEFT WLR_BUTTON_PRESSED)
        [{ x := 291, y := 13 }, { x := 280, y := 5 }])
      BTN_LEFT WLR_BUTTON_RELEASED).requests = [request_t.close] ∧
    (on_pointer_button spec_layout_input_ops
      (on_pointer_motions spec_layout_input_ops
        (on_pointer_motion spec_layout_input_ops
          (on_pointer_motions spec_layout_input_ops
            (on_pointer_button spec_layout_input_ops
              (on_pointer_motion spec_layout_input_ops (example_input_surface 0) 290 12)
              BTN_LEFT WLR_BUTTON_PRESSED)
            [{ x := 291, y := 13 }, { x := 280, y := 5 }])
          150 12) [{ x := 290, y := 12 }])
      BTN_LEFT WLR_BUTTON_RELEASED).requests = [] :=
  have h := click_commit_law
    (on_pointer_motion spec_layout_input_ops (example_input_surface 0) 290 12)
    button_kind_t.Close { x := 276, y := 4, width := 20, height := 20 }
    (by decide) (by decide) [{ x := 291, y := 13 }, { x := 280, y := 5 }] (by decide)
    150 12 (by decide) [{ x := 290, y := 12 }]
  ⟨⟨by decide, by decide⟩, h.2.2.2.2.2.1, h.2.2.2.2.2.2.1, h.2.2.2.2.2.2.2⟩


end Decor


namespace WmActions

/-! ## Choosing the selected view -/

theorem choose_view_eq_active (focus : focus_t) (source : activator_source_t) :
    choose_view focus source =
      match focus.active_view with
      | none => none
      | some v => if v.role = view_role_t.VIEW_ROLE_TOPLEVEL then some v else none := by
  unfold choose_view assign
  cases focus.active_view with
  | none => rfl
  | some v => by_cases h : v.role = view_role_t.VIEW_ROLE_TOPLEVEL <;> simp [h]

theorem choose_view_eq_spec_of_ne_button (focus : focus_t) (source : activator_source_t)
    (h : source ≠ activator_source_t.BUTTONBINDING) :
    choose_view focus source = choose_view_spec focus source := by
  rw [choose_view_eq_active]
  simp [choose_view_spec, h]

/-- C10: for a button binding with one toplevel view under the cursor and
another toplevel view active, `choose_view` returns the active view, where the
selection the claim describes is the view under the cursor; with no active view
it returns null although the view under the cursor is a toplevel. -/
theorem choose_view_button_binding_returns_active_view :
    example_cursor_view.role = view_role_t.VIEW_ROLE_TOPLEVEL ∧
    example_active_view.role = view_role_t.VIEW_ROLE_TOPLEVEL ∧
    choose_view
      { cursor_focus_view := some example_cursor_view, active_view := some example_active_view }
      activator_source_t.BUTTONBINDING = some example_active_view ∧
    choose_view_spec
      { cursor_focus_view := some example_cursor_view, active_view := some example_active_view }
      activator_source_t.BUTTONBINDING = some example_cursor_view ∧
    choose_view { cursor_focus_view := some example_cursor_view, active_view := none }
      activator_source_t.BUTTONBINDING = none ∧
    choose_view_spec { cursor_focus_view := some example_cursor_view, active_view := none }
      activator_source_t.BUTTONBINDING = some example_cursor_view := by
  decide


/-! ## Toggling always-on-top without a selected view -/

theorem on_toggle_above_of_no_view (p : wayfire_wm_actions_t) (focus : focus_t)
    (source : activator_source_t) (h : choose_view focus source = none) :
    on_toggle_above p focus source = Except.error fault_t.null_pointer_dereference := by
  simp [on_toggle_above, h, wayfire_view_has_data]

theorem set_keep_above_state_null (p : wayfire_wm_actions_t) (above : Bool) :
    set_keep_above_state p none above = (false, p) := rfl

theorem execute_for_selected_view_of_no_view (p : wayfire_wm_actions_t) (focus : focus_t)
    (source : activator_source_t)
    (for_view : wayfire_wm_actions_t → view_t → Bool × wayfire_wm_actions_t)
    (h : choose_view focus source = none) :
    execute_for_selected_view p focus source for_view = (false, p) := by
  simp [execute_for_selected_view, h]

/-! ## Show-desktop round trip -/

theorem has_data_store_data (v : view_t) (key : String) :
    (v.store_data key).has_data key = true := by
  simp [view_t.has_data, view_t.store_data]

theorem has_data_erase_data (v : view_t) (key : String) :
    (v.erase_data key).has_data key = false := by
  simp [view_t.has_data, view_t.erase_data, List.mem_filter]

theorem in_layers_wm_not_minimized {pv : output_view_t}
    (h : in_layers WM_LAYERS false pv = true) : pv.view.minimized = false := by
  simp [in_layers] at h
  exact h.2

theorem in_layers_all_of_wm {pv : output_view_t} (v : view_t)
    (h : in_layers WM_LAYERS false pv = true) :
    in_layers ALL_LAYERS true { pv with view := v } = true := by
  simp only [in_layers] at h ⊢
  cases hp : pv.parent.layer_of with
  | none => simp [hp] at h
  | some l => simp [ALL_LAYERS]

theorem showdesktop_minimize_requests (policy : minimize_policy_t) (vs : List output_view_t) :
    (for_views_in_layer WM_LAYERS false (showdesktop_minimize policy) vs).2 =
      (get_views_in_layer vs WM_LAYERS false).map
        (fun pv => wm_request_t.minimize_request pv.view.id true) := by
  induction vs with
  | nil => rfl
  | cons pv rest ih =>
    unfold get_views_in_layer at ih ⊢
    by_cases hs : in_layers WM_LAYERS false pv = true
    · have hm := in_layers_wm_not_minimized hs
      simp [for_views_in_layer, hs, List.filter_cons, showdesktop_minimize, hm, ih]
    · simp [for_views_in_layer, hs, List.filter_cons, ih]

theorem showdesktop_minimize_marks (policy : minimize_policy_t) (vs : List output_view_t)
    (hclean : ∀ pv ∈ vs, pv.view.has_data showdesktop_key = false) :
    (for_views_in_layer WM_LAYERS false (showdesktop_minimize policy) vs).1.map
        (fun pv => pv.view.has_data showdesktop_key) =
      vs.map (in_layers WM_LAYERS false) := by
  induction vs with
  | nil => rfl
  | cons pv rest ih =>
    have ih2 := ih (fun q hq => hclean q (List.mem_cons_of_mem pv hq))
    have hpv := hclean pv (List.mem_cons_self pv rest)
    by_cases hs : in_layers WM_LAYERS false pv = true
    · have hm := in_layers_wm_not_minimized hs
      simp only [for_views_in_layer, hs, if_true, List.map_cons, ih2, showdesktop_minimize, hm,
        Bool.not_false]
      rw [has_data_store_data]
    · simp only [for_views_in_layer, hs, Bool.false_eq_true, if_false, List.map_cons, ih2, hpv]

theorem showdesktop_restore_after_minimize (policy : minimize_policy_t)
    (vs : List output_view_t)
    (hclean : ∀ pv ∈ vs, pv.view.has_data showdesktop_key = false) :
    (for_views_in_layer ALL_LAYERS true (showdesktop_restore policy)
        (for_views_in_layer WM_LAYERS false (showdesktop_minimize policy) vs).1).2 =
      (get_views_in_layer vs WM_LAYERS false).map
        (fun pv => wm_request_t.minimize_request pv.view.id false) ∧
    (∀ pv ∈ (for_views_in_layer ALL_LAYERS true (showdesktop_restore policy)
        (for_views_in_layer WM_LAYERS false (showdesktop_minimize policy) vs).1).1,
      pv.view.has_data showdesktop_key = false) := by
  induction vs with
  | nil => exact ⟨rfl, fun pv h => by simp [for_views_in_layer] at h⟩
  | cons pv rest ih =>
    obtain ⟨ih1, ih2⟩ := ih (fun q hq => hclean q (List.mem_cons_of_mem pv hq))
    have hpv := hclean pv (List.mem_cons_self pv rest)
    unfold get_views_in_layer at ih1 ⊢
    by_cases hs : in_layers WM_LAYERS false pv = true
    · have hm := in_layers_wm_not_minimized hs
      have hall := in_layers_all_of_wm
        ((pv.view.minimize_request policy true).store_data showdesktop_key) hs
      have hmark := has_data_store_data (pv.view.minimize_request policy true) showdesktop_key
      simp only [for_views_in_layer, hs, if_true, showdesktop_minimize, hm, Bool.not_false,
        hall, showdesktop_restore, hmark, List.filter_cons, List.map_cons, ih1,
        List.singleton_append, List.mem_cons]
      refine ⟨?_, ?_⟩
      · simp [view_t.store_data, view_t.minimize_request]
      · intro q hq
        rcases hq with rfl | hq
        · simp only [view_t.minimize_request]
          exact has_data_erase_data _ _
        · exact ih2 q hq
    · have hs2 : in_layers WM_LAYERS false pv = false := by simpa using hs
      simp only [for_views_in_layer, hs2, Bool.false_eq_true, if_false, showdesktop_restore,
        hpv, List.filter_cons, ih1, List.nil_append, List.mem_cons]
      refine ⟨?_, ?_⟩
      · split <;> rfl
      · intro q hq
        have hq2 : q = pv ∨ q ∈ (for_views_in_layer ALL_LAYERS true (showdesktop_restore policy)
            (for_views_in_layer WM_LAYERS false (showdesktop_minimize policy) rest).1).1 := by
          split at hq
          · simpa using hq
          · simpa using hq
        rcases hq2 with rfl | hq2
        · exact hpv
        · exact ih2 q hq2

theorem minimize_request_not_sent (vs : List output_view_t)
    (hid : (vs.map (fun pv => pv.view.id)).Nodup) (pv : output_view_t) (hpv : pv ∈ vs)
    (hout : in_layers WM_LAYERS false pv = false) (b : Bool) :
    wm_request_t.minimize_request pv.view.id b ∉
      (get_views_in_layer vs WM_LAYERS false).map
        (fun q => wm_request_t.minimize_request q.view.id b) := by
  intro hmem
  obtain ⟨q, hq, he⟩ := List.mem_map.mp hmem
  unfold get_views_in_layer at hq
  obtain ⟨hqv, hqs⟩ := List.mem_filter.mp hq
  have hidq : q.view.id = pv.view.id := by
    injection he
  have hqp : q = pv := List.inj_on_of_nodup_map hid hqv hpv hidq
  rw [hqp, hout] at hqs
  exact Bool.false_ne_true hqs

/-- C12, amended: starting with show-desktop inactive and no view carrying the
show-desktop marker, toggling show-desktop on and then off again sends
minimize_request(true) to exactly the views of the window-management layers
that are not minimized and marks exactly them, then sends
minimize_request(false) to exactly the same views, leaves no view marked and
leaves showdesktop_active false; both activations return true, and a view that
was minimized beforehand or lies outside the window-management layers gets no
request, whatever the compositor makes of the requests. -/
theorem showdesktop_round_trip (policy : minimize_policy_t) (p : wayfire_wm_actions_t)
    (hoff : p.showdesktop_active = false)
    (hclean : ∀ pv ∈ p.views, pv.view.has_data showdesktop_key = false) :
    (on_toggle_showdesktop policy p).1 = true ∧
    (on_toggle_showdesktop policy p).2.showdesktop_active = true ∧
    (on_toggle_showdesktop policy p).2.requests =
      p.requests ++ (get_views_in_layer p.views WM_LAYERS false).map
        (fun pv => wm_request_t.minimize_request pv.view.id true) ∧
    (on_toggle_showdesktop policy p).2.views.map (fun pv => pv.view.has_data showdesktop_key) =
      p.views.map (in_layers WM_LAYERS false) ∧
    (on_toggle_showdesktop policy (on_toggle_showdesktop policy p).2).1 = true ∧
    (on_toggle_showdesktop policy (on_toggle_showdesktop policy p).2).2.requests =
      (on_toggle_showdesktop policy p).2.requests ++
        (get_views_in_layer p.views WM_LAYERS false).map
          (fun pv => wm_request_t.minimize_request pv.view.id false) ∧
    (∀ pv ∈ (on_toggle_showdesktop policy (on_toggle_showdesktop policy p).2).2.views,
      pv.view.has_data showdesktop_key = false) ∧
    (on_toggle_showdesktop policy (on_toggle_showdesktop policy p).2).2.showdesktop_active =
      false ∧
    ((p.views.map (fun pv => pv.view.id)).Nodup →
      ∀ pv ∈ p.views, in_layers WM_LAYERS false pv = false → ∀ b : Bool,
        wm_request_t.minimize_request pv.view.id b ∉
          (get_views_in_layer p.views WM_LAYERS false).map
              (fun q => wm_request_t.minimize_request q.view.id true) ++
            (get_views_in_layer p.views WM_LAYERS false).map
              (fun q => wm_request_t.minimize_request q.view.id false)) := by
  have hon : on_toggle_showdesktop policy p =
      (true,
        { showdesktop_active := true, view_attached_connected := true,
          workspace_changed_connected := true, view_minimized_connected := true,
          on_view_mapped_connected := true, can_activate_plugin := p.can_activate_plugin,
          views := (for_views_in_layer WM_LAYERS false (showdesktop_minimize policy) p.views).1,
          requests := p.requests ++
            (for_views_in_layer WM_LAYERS false (showdesktop_minimize policy) p.views).2 }) := by
    simp [on_toggle_showdesktop, hoff]
  obtain ⟨hr, hm⟩ := showdesktop_restore_after_minimize policy p.views hclean
  rw [hon]
  refine ⟨rfl, rfl, ?_, ?_, ?_, ?_, ?_, ?_, ?_⟩
  · simp only [showdesktop_minimize_requests]
  · exact showdesktop_minimize_marks policy p.views hclean
  · simp [on_toggle_showdesktop]
  · simp only [on_toggle_showdesktop, disable_showdesktop, Bool.not_true, Bool.false_eq_true,
      if_false, hr]
  · simpa [on_toggle_showdesktop, disable_showdesktop] using hm
  · simp [on_toggle_showdesktop, disable_showdesktop]
  · intro hid pv hpv hout b hmem
    rcases List.mem_append.mp hmem with h | h
    · cases b with
      | true => exact minimize_request_not_sent p.views hid pv hpv hout true h
      | false =>
        obtain ⟨q, _, he⟩ := List.mem_map.mp h
        injection he with _ hb
        exact Bool.noConfusion hb
    · cases b with
      | false => exact minimize_request_not_sent p.views hid pv hpv hout false h
      | true =>
        obtain ⟨q, _, he⟩ := List.mem_map.mp h
        injection he with _ hb
        exact Bool.noConfusion hb

/-- C11: with no active view, or with an active view that is not a toplevel,
`choose_view` yields null and `on_toggle_above` accesses `has_data` of the
missing view before `set_keep_above_state` can test the pointer: the execution
is undefined instead of returning false. `set_keep_above_state` itself and
`execute_for_selected_view` return false and leave the state alone for a null
view. -/
theorem on_toggle_above_dereferences_null_view :
    choose_view { cursor_focus_view := none, active_view := none }
      activator_source_t.KEYBINDING = none ∧
    on_toggle_above example_output { cursor_focus_view := none, active_view := none }
      activator_source_t.KEYBINDING = Except.error fault_t.null_pointer_dereference ∧
    choose_view
      { cursor_focus_view := none,
        active_view := some { id := 3, role := view_role_t.VIEW_ROLE_DESKTOP_ENVIRONMENT,
                              minimized := false, mapped := true, data := [] } }
      activator_source_t.KEYBINDING = none ∧
    on_toggle_above example_output
      { cursor_focus_view := none,
        active_view := some { id := 3, role := view_role_t.VIEW_ROLE_DESKTOP_ENVIRONMENT,
                              minimized := false, mapped := true, data := [] } }
      activator_source_t.KEYBINDING = Except.error fault_t.null_pointer_dereference ∧
    set_keep_above_state example_output none true = (false, example_output) ∧
    execute_for_selected_view example_output { cursor_focus_view := none, active_view := none }
      activator_source_t.KEYBINDING (fun p _ => (true, p)) = (false, example_output) := by
  refine ⟨rfl, rfl, rfl, rfl, rfl, rfl⟩

/-- C12, as stated, fails: a panel in the top layer that is not minimized gets
no minimize request when show-desktop is toggled on, and a minimized window
that carries the marker while show-desktop is inactive gets an un-minimize
request when show-desktop is toggled on and off. -/
theorem showdesktop_skips_views_outside_wm_layers :
    example_output.showdesktop_active = false ∧
    example_output.views.map (fun pv => (pv.view.id, pv.view.minimized)) =
      [(1, false), (2, true), (3, false)] ∧
    (on_toggle_showdesktop example_policy example_output).2.requests =
      [wm_request_t.minimize_request 1 true] ∧
    wm_request_t.minimize_request 3 true ∉
      (on_toggle_showdesktop example_policy example_output).2.requests ∧
    example_marked_output.showdesktop_active = false ∧
    example_marked_output.views.map (fun pv => (pv.view.id, pv.view.minimized)) =
      [(7, true)] ∧
    (on_toggle_showdesktop example_policy
      (on_toggle_showdesktop example_policy example_marked_output).2).2.requests =
      [wm_request_t.minimize_request 7 false] := by
  decide

theorem showdesktop_round_trip_witness :
    (example_output.showdesktop_active = false ∧
      ∀ pv ∈ example_output.views, pv.view.has_data showdesktop_key = false) ∧
    (on_toggle_showdesktop example_policy example_output).2.requests =
      [wm_request_t.minimize_request 1 true] ∧
    (on_toggle_showdesktop example_policy
      (on_toggle_showdesktop example_policy example_output).2).2.requests =
      [wm_request_t.minimize_request 1 true, wm_request_t.minimize_request 1 false] ∧
    (on_toggle_showdesktop example_policy
      (on_toggle_showdesktop example_policy example_output).2).2.showdesktop_active = false :=
  have h := showdesktop_round_trip example_policy example_output rfl (by decide)
  ⟨⟨rfl, by decide⟩, h.2.2.1, h.2.2.2.2.2.1, h.2.2.2.2.2.2.2.1⟩

end WmActions
